import Mathlib

/-!
Verification development for the plugin subsystem of `huawei_pdf_reader`
(`src/huawei_pdf_reader/plugin_manager.py`), a shallow embedding of the
plugin lifecycle manager, its capability-gated `PluginAPI`, the execution
sandbox `PluginSandbox`, and the manifest validator.

Modelling conventions:
* Python values appearing in manifests (the result of `json.loads`) are
  modelled by the inductive `PyVal` (floats are out of scope).
* A call into plugin-authored code either returns normally or raises; this
  is modelled by `PyResult` (the exception carries its class name, `str(e)`
  and the formatted traceback).
* Python dicts are modelled as association lists with unique keys, with
  `dictGet` / `dictSet` / `dictDel` mirroring subscript, assignment and
  `del`.
* Filesystem and dynamic-import effects are abstracted into a per-plugin
  `LoadBehavior` stored in the manager state's `files` map: it records the
  observable outcome of `PluginManager._load_plugin`'s import machinery for
  the code that was materialised at install time.
-/

namespace HPR

/-- Model of a Python/JSON value (the result of `json.loads`). -/
inductive PyVal where
  | str (s : String)
  | num (n : Int)
  | bool (b : Bool)
  | null
  | arr (xs : List PyVal)
  | obj (kvs : List (String × PyVal))

/-- Python equality test between a `PyVal` and a Python string (the only
cross-type comparison the embedded code performs, in `in` membership tests):
true exactly when the value is that string. -/
def PyVal.eqStr : PyVal → String → Bool
  | .str s, t => s == t
  | _, _ => false

/-- Python's `str.endswith`: is `suff` a suffix of `s`? (Character-list
based so that it is executable and easy to reason about.) -/
def strEndsWith (s suff : String) : Bool :=
  decide (suff.toList.length ≤ s.toList.length) &&
    (s.toList.drop (s.toList.length - suff.toList.length) == suff.toList)

/-- Does `needle` occur as a contiguous substring of `hay`? (Character-list
based so that it is executable and easy to reason about.) -/
def strContains (hay needle : String) : Bool :=
  (List.range (hay.toList.length + 1)).any
    (fun i => (hay.toList.drop i).take needle.toList.length == needle.toList)

/-- Python dict lookup (`d[k]` / `d.get(k)`) on an association list. -/
def dictGet (kvs : List (String × α)) (k : String) : Option α :=
  (kvs.find? (fun e => e.1 == k)).map (·.2)

/-- Python dict assignment `d[k] = v`: replaces the value in place if the key
is present, otherwise appends preserving insertion order. -/
def dictSet (kvs : List (String × α)) (k : String) (v : α) : List (String × α) :=
  if (kvs.find? (fun e => e.1 == k)).isSome then
    kvs.map (fun e => if e.1 == k then (e.1, v) else e)
  else
    kvs ++ [(k, v)]

/-- Python dict deletion `del d[k]` (no-op when the key is absent is fine for
our uses, which guard with membership). -/
def dictDel (kvs : List (String × α)) (k : String) : List (String × α) :=
  kvs.filter (fun e => !(e.1 == k))

/-- Python truthiness of a `PyVal` (`bool(v)`). -/
def truthy : PyVal → Bool
  | .str s => !(s == "")
  | .num n => !(n == 0)
  | .bool b => b
  | .null => false
  | .arr xs => !xs.isEmpty
  | .obj kvs => !kvs.isEmpty

/-- Rendering of a `PyVal` inside an f-string, as in `f"未知的权限: \x7bperm\x7d"`.
Faithful for strings, numbers, booleans and `None`; containers get a
placeholder rendering (no claim depends on it). -/
def pyStr : PyVal → String
  | .str s => s
  | .num n => toString n
  | .bool b => if b then "True" else "False"
  | .null => "None"
  | .arr _ => "<list>"
  | .obj _ => "<dict>"

/-- Outcome of invoking a Python callable: normal return, or a raised
exception with its class name (`type(e).__name__`), message (`str(e)`) and
formatted traceback (`traceback.format_exc()`). -/
inductive PyResult (α : Type) where
  | ok (val : α)
  | exc (kind detail trace : String)

/-- One structured entry of `PluginAPI._logs` (plugin_manager.py lines
148-153). -/
structure LogEntry where
  plugin_id : String
  level : String
  message : String
  timestamp : String
  deriving DecidableEq

/-- State of a `PluginAPI` instance (plugin_manager.py lines 50-241).
Python's private attributes `_plugin_id`, `_permissions`, `_callbacks`,
`_storage`, `_logs` are the fields below (leading underscores dropped);
callbacks are opaque handles modelled by `Nat`, stored values by `PyVal`. -/
structure PluginAPI where
  plugin_id : String
  permissions : List String
  callbacks : List (String × List Nat) := []
  storage : List (String × PyVal) := []
  logs : List LogEntry := []

namespace PluginAPI

/-- Constructor `PluginAPI(plugin_id, permissions)` (lines 69-81). -/
def init (plugin_id : String) (permissions : List String) : PluginAPI :=
  { plugin_id := plugin_id, permissions := permissions }

/-- `_check_permission` (lines 83-85): membership in the permission set. -/
def check_permission (api : PluginAPI) (permission : String) : Bool :=
  api.permissions.contains permission

/-- `register_callback` (lines 96-112): requires the `events` permission. -/
def register_callback (api : PluginAPI) (event : String) (callback : Nat) :
    PluginAPI × Bool :=
  if !(api.check_permission "events") then (api, false)
  else
    let cur := (dictGet api.callbacks event).getD []
    ({ api with callbacks := dictSet api.callbacks event (cur ++ [callback]) }, true)

/-- `unregister_callback` (lines 114-128): removes the first matching handle
if present; no permission check. -/
def unregister_callback (api : PluginAPI) (event : String) (callback : Nat) :
    PluginAPI × Bool :=
  match dictGet api.callbacks event with
  | some cbs =>
      if cbs.contains callback then
        ({ api with callbacks := dictSet api.callbacks event (cbs.erase callback) }, true)
      else (api, false)
  | none => (api, false)

/-- `get_callbacks` (lines 130-132). -/
def get_callbacks (api : PluginAPI) (event : String) : List Nat :=
  (dictGet api.callbacks event).getD []

/-- `clear_callbacks` (lines 134-136). -/
def clear_callbacks (api : PluginAPI) : PluginAPI :=
  { api with callbacks := [] }

/-- `log` (lines 140-155); `now` stands for `datetime.now().isoformat()`. -/
def log (api : PluginAPI) (message : String) (level : String) (now : String) :
    PluginAPI :=
  { api with logs := api.logs ++
      [{ plugin_id := api.plugin_id, level := level.toUpper,
         message := message, timestamp := now }] }

/-- `clear_logs` (lines 161-163). -/
def clear_logs (api : PluginAPI) : PluginAPI :=
  { api with logs := [] }

/-- `store_data` (lines 167-181): requires the `storage` permission. -/
def store_data (api : PluginAPI) (key : String) (value : PyVal) :
    PluginAPI × Bool :=
  if !(api.check_permission "storage") then (api, false)
  else ({ api with storage := dictSet api.storage key value }, true)

/-- `get_data` (lines 183-196): without `storage` returns the default. -/
def get_data (api : PluginAPI) (key : String) (default : PyVal) : PyVal :=
  if !(api.check_permission "storage") then default
  else (dictGet api.storage key).getD default

/-- `delete_data` (lines 198-213). -/
def delete_data (api : PluginAPI) (key : String) : PluginAPI × Bool :=
  if !(api.check_permission "storage") then (api, false)
  else if (dictGet api.storage key).isSome then
    ({ api with storage := dictDel api.storage key }, true)
  else (api, false)

/-- `has_permission` (lines 231-233). -/
def has_permission (api : PluginAPI) (permission : String) : Bool :=
  api.check_permission permission

/-- `cleanup` (lines 237-241): clears callbacks, logs and storage. -/
def cleanup (api : PluginAPI) : PluginAPI :=
  { (api.clear_callbacks.clear_logs) with storage := [] }

end PluginAPI

/-- The live plugin instance held by a sandbox: only its `on_unload`
behaviour is observable to the manager after loading (`on_load` has already
been consumed at load time). -/
structure PluginInstance where
  on_unload : PyResult Unit

/-- The `PluginSandbox` dataclass (plugin_manager.py lines 273-341). -/
structure PluginSandbox where
  plugin_id : String
  plugin_instance : Option PluginInstance := none
  api : Option PluginAPI := none
  is_loaded : Bool := false
  last_error : Option String := none
  error_count : Nat := 0
  max_errors : Nat := 5

namespace PluginSandbox

/-- Dataclass construction `PluginSandbox(plugin_id=pid)` with all other
fields defaulted. -/
def init (pid : String) : PluginSandbox :=
  { plugin_id := pid }

/-- `execute_safely` (lines 289-309): the wrapped call's outcome is passed in
as a `PyResult`; on an exception the error counter is incremented, the
composed message `"<kind>: <detail>\n<trace>"` is recorded as `last_error`,
and `(False, None, last_error)` is returned. -/
def execute_safely (sb : PluginSandbox) (call : PyResult α) :
    PluginSandbox × (Bool × Option α × Option String) :=
  match call with
  | .ok r => (sb, (true, some r, none))
  | .exc kind detail trace =>
      let msg := kind ++ ": " ++ detail ++ "\n" ++ trace
      ({ sb with error_count := sb.error_count + 1, last_error := some msg },
       (false, none, some msg))

/-- `should_disable` (lines 311-320). -/
def should_disable (sb : PluginSandbox) : Bool :=
  decide (sb.max_errors ≤ sb.error_count)

/-- `reset_error_count` (lines 322-325). -/
def reset_error_count (sb : PluginSandbox) : PluginSandbox :=
  { sb with error_count := 0, last_error := none }

end PluginSandbox

/-! ### Manifest validation (plugin_manager.py lines 358-486) -/

/-- `PluginManager.REQUIRED_MANIFEST_FIELDS` (line 361). -/
def requiredManifestFields : List String := ["id", "name", "version", "entry_point"]

/-- `PluginManager.ALLOWED_PERMISSIONS` (lines 364-374). -/
def allowedPermissions : List String :=
  ["events", "document_read", "document_write", "annotation_read",
   "annotation_write", "settings_read", "settings_write", "network", "storage"]

/-- Python membership test `key in v` for a string key; raises `TypeError`
when the value does not support `in`. -/
def pyContains (v : PyVal) (key : String) : Except String Bool :=
  match v with
  | .obj kvs => .ok (dictGet kvs key).isSome
  | .arr xs => .ok (xs.any (fun x => x.eqStr key))
  | .str s => .ok (strContains s key)
  | _ => .error "TypeError: argument is not iterable"

/-- Python subscript `v[key]` for a string key; raises `KeyError` /
`TypeError` as Python does. -/
def pySubscript (v : PyVal) (key : String) : Except String PyVal :=
  match v with
  | .obj kvs =>
      match dictGet kvs key with
      | some x => .ok x
      | none => .error ("KeyError: " ++ key)
  | _ => .error "TypeError: indices must be integers"

/-- The required-field loop of `_validate_manifest` (lines 466-470): returns
`some (false, msg)` for the first missing or falsy field, `none` when every
field passes; propagates Python exceptions from `in` / subscript. -/
def checkRequiredFields (v : PyVal) : List String → Except String (Option (Bool × String))
  | [] => .ok none
  | f :: rest => do
      let present ← pyContains v f
      if !present then
        pure (some (false, "清单缺少必需字段: " ++ f))
      else
        let val ← pySubscript v f
        if !truthy val then
          pure (some (false, "清单字段不能为空: " ++ f))
        else
          checkRequiredFields v rest

/-- The permission loop of `_validate_manifest` (lines 477-479): the first
entry not equal to an allowed permission string fails with its rendering. -/
def checkPermissionsList : List PyVal → Bool × String
  | [] => (true, "")
  | p :: rest =>
      if !(allowedPermissions.any (fun a => p.eqStr a)) then
        (false, "未知的权限: " ++ pyStr p)
      else checkPermissionsList rest

/-- `_validate_manifest` (lines 458-486) applied to the parsed JSON value;
`Except.error` models a Python exception escaping `_validate_manifest`
(possible only for manifests whose `entry_point` value is not a string or
whose root is not a JSON object — callers catch it). -/
def validateManifestVal (v : PyVal) : Except String (Bool × String) := do
  match ← checkRequiredFields v requiredManifestFields with
  | some r => pure r
  | none =>
    match v with
    | .obj kvs =>
        match (dictGet kvs "permissions").getD (.arr []) with
        | .arr ps =>
            let (ok, msg) := checkPermissionsList ps
            if !ok then pure (false, msg)
            else
              match ← pySubscript v "entry_point" with
              | .str s =>
                  if !(strEndsWith s ".py") then pure (false, "入口点必须是.py文件")
                  else pure (true, "")
              | _ => throw "AttributeError: no attribute endswith"
        | _ => pure (false, "permissions字段必须是数组")
    | _ => throw "AttributeError: no attribute get"

/-- Outcome of locating and reading a manifest file's bytes and parsing them:
reading/decoding may fail, parsing may fail, or a value is produced. -/
inductive ManifestRead where
  | readFail (msg : String)
  | parseFail (msg : String)
  | parsed (v : PyVal)

/-- Observable behaviour of the code unit materialised for a plugin, i.e. the
outcome of the dynamic-import part of `_load_plugin` (lines 640-702). -/
inductive LoadBehavior where
  /-- The entry-point file is absent from the install directory (line 645). -/
  | entryMissing
  /-- `spec_from_file_location` or its loader is `None` (lines 657-658). -/
  | moduleSpecFail
  /-- `exec_module` raised; `detail` is `str(e)` (line 662). -/
  | execModuleFail (detail : String)
  /-- No `IPlugin` subclass is found in the module (lines 665-675). -/
  | noPluginClass
  /-- Instantiating the discovered class raised (line 678). -/
  | initFail (detail : String)
  /-- A plugin instance was produced: `onLoad` is the effect of
  `instance.on_load` on the fresh `PluginAPI` (returning the mutated API on
  success), `onUnload` the later outcome of `instance.on_unload`. -/
  | loads (onLoad : PluginAPI → PyResult PluginAPI) (onUnload : PyResult Unit)

/-- A plugin package handed to `validate_plugin` / `install_plugin`: the
shape of the path plus the readable content relevant to the manager. -/
inductive PluginPackage where
  /-- `plugin_path.exists()` is false; carries the rendered path. -/
  | missing (path : String)
  /-- A `.zip` path whose open raises `zipfile.BadZipFile`. -/
  | badZip
  /-- A readable `.zip` archive: its entry names with, for each, the outcome
  of reading/parsing that entry, plus the behaviour of the packaged code. -/
  | zipArch (entries : List (String × ManifestRead)) (code : LoadBehavior)
  /-- A directory: the outcome of reading a top-level `plugin.json` (`none`
  when absent), plus the behaviour of the packaged code. -/
  | dirPkg (manifest : Option ManifestRead) (code : LoadBehavior)
  /-- The path exists but is neither a `.zip` file nor a directory. -/
  | unsupported

/-- `_validate_zip_plugin` (lines 420-443): scans entry names for the first
one ending in `plugin.json`. -/
def validateZipPlugin (entries : List (String × ManifestRead)) : Bool × String :=
  match entries.find? (fun e => strEndsWith e.1 "plugin.json") with
  | none => (false, "插件缺少清单文件: plugin.json")
  | some (_, .readFail msg) => (false, "读取zip文件失败: " ++ msg)
  | some (_, .parseFail msg) => (false, "清单文件JSON格式错误: " ++ msg)
  | some (_, .parsed v) =>
      match validateManifestVal v with
      | .ok r => r
      | .error e => (false, "读取zip文件失败: " ++ e)

/-- `_validate_dir_plugin` (lines 445-456): requires `plugin.json` at the top
level of the directory. -/
def validateDirPlugin (manifest : Option ManifestRead) : Bool × String :=
  match manifest with
  | none => (false, "插件缺少清单文件: plugin.json")
  | some (.readFail msg) => (false, "读取清单文件失败: " ++ msg)
  | some (.parseFail msg) => (false, "清单文件JSON格式错误: " ++ msg)
  | some (.parsed v) =>
      match validateManifestVal v with
      | .ok r => r
      | .error e => (false, "读取清单文件失败: " ++ e)

/-- `validate_plugin` (lines 392-418): dispatches on the package shape; the
surrounding `try`/`except` makes the result total. -/
def validatePlugin (pkg : PluginPackage) : Bool × String :=
  match pkg with
  | .missing path => (false, "插件路径不存在: " ++ path)
  | .badZip => (false, "无效的zip文件")
  | .zipArch entries _ => validateZipPlugin entries
  | .dirPkg manifest _ => validateDirPlugin manifest
  | .unsupported => (false, "不支持的插件格式，请使用.zip文件或目录")

/-- `_read_manifest` (lines 538-548): re-reads the manifest during install;
read or parse failures propagate as exceptions (install has no handler). -/
def readManifest (pkg : PluginPackage) : Except String PyVal :=
  match pkg with
  | .zipArch entries _ =>
      match entries.find? (fun e => strEndsWith e.1 "plugin.json") with
      | some (_, .parsed v) => .ok v
      | some (_, .parseFail msg) => .error msg
      | some (_, .readFail msg) => .error msg
      | none => .error "无法读取插件清单"
  | .dirPkg (some (.parsed v)) _ => .ok v
  | .dirPkg (some (.parseFail msg)) _ => .error msg
  | .dirPkg (some (.readFail msg)) _ => .error msg
  | .dirPkg none _ => .error "FileNotFoundError: plugin.json"
  | _ => .error "无法读取插件清单"

/-- The code a package materialises into the install directory. -/
def PluginPackage.code : PluginPackage → LoadBehavior
  | .zipArch _ c => c
  | .dirPkg _ c => c
  | _ => .entryMissing

/-! ### Persistent records and the database (models.py lines 452-463,
database.py lines 541-614) -/

/-- The `PluginInfo` dataclass (models.py lines 452-463); `installed_at`
abstracts the timestamp. -/
structure PluginInfo where
  id : String
  name : String
  version : String
  author : String
  description : String
  entry_point : String
  permissions : List String := []
  enabled : Bool := false
  installed_at : Nat := 0
  deriving DecidableEq

/-- `Database.get_plugin` (database.py lines 565-573): first row matching the
id, or nothing. -/
def dbGetPlugin (db : List PluginInfo) (pid : String) : Option PluginInfo :=
  db.find? (fun p => p.id == pid)

/-- `Database.add_plugin` (lines 541-563): inserts a new row. -/
def dbAddPlugin (db : List PluginInfo) (p : PluginInfo) : List PluginInfo :=
  db ++ [p]

/-- `Database.update_plugin_status` (lines 587-594): sets `enabled` on every
row with the given id. -/
def dbUpdatePluginStatus (db : List PluginInfo) (pid : String) (enabled : Bool) :
    List PluginInfo :=
  db.map (fun p => if p.id == pid then { p with enabled := enabled } else p)

/-- `Database.delete_plugin` (lines 596-600). -/
def dbDeletePlugin (db : List PluginInfo) (pid : String) : List PluginInfo :=
  db.filter (fun p => !(p.id == pid))

/-- `Database.get_enabled_plugins` (lines 581-585). -/
def dbGetEnabledPlugins (db : List PluginInfo) : List PluginInfo :=
  db.filter (·.enabled)

/-- `Database.get_all_plugins` (lines 575-579). -/
def dbGetAllPlugins (db : List PluginInfo) : List PluginInfo := db

/-! ### The lifecycle manager (plugin_manager.py lines 346-861) -/

/-- The mutable state owned by a `PluginManager` instance together with its
database and plugin directory: persisted records (`self._db`), the sandbox
map (`self._sandboxes`), the keys of the loaded-module map
(`self._loaded_modules`), and the installed code per plugin id (the contents
of `self._plugins_dir`). -/
structure ManagerState where
  db : List PluginInfo := []
  sandboxes : List (String × PluginSandbox) := []
  loaded_modules : List String := []
  files : List (String × LoadBehavior) := []

namespace PluginManager

/-- A fresh manager over a database with records `db` and an install
directory already holding `files` (the constructor, lines 376-390). -/
def init (db : List PluginInfo) (files : List (String × LoadBehavior)) :
    ManagerState :=
  { db := db, files := files }

/-- The `except` clause of `_load_plugin` (lines 699-702): records the
failure on the sandbox, stores the sandbox, and re-raises
`ValueError("加载插件失败: ...")`. -/
def loadFail (st : ManagerState) (pid : String) (sb : PluginSandbox)
    (detail : String) : ManagerState × Option String :=
  ({ st with sandboxes := dictSet st.sandboxes pid { sb with last_error := some detail } },
   some ("加载插件失败: " ++ detail))

/-- `_load_plugin` (lines 640-702). A missing entry point raises before any
sandbox is created or stored; every failure inside the `try` is recorded on
a fresh sandbox and re-raised; on success the sandbox holds the instance and
its API and is marked loaded, and the module is retained. The `Option
String` result is the raised exception's message (`none` = success). -/
def load_plugin (st : ManagerState) (plugin : PluginInfo) :
    ManagerState × Option String :=
  match dictGet st.files plugin.id with
  | none => (st, some ("插件入口点不存在: " ++ plugin.id ++ "/" ++ plugin.entry_point))
  | some behavior =>
    match behavior with
    | .entryMissing =>
        (st, some ("插件入口点不存在: " ++ plugin.id ++ "/" ++ plugin.entry_point))
    | .moduleSpecFail => loadFail st plugin.id (.init plugin.id) "无法加载插件模块"
    | .execModuleFail d => loadFail st plugin.id (.init plugin.id) d
    | .noPluginClass =>
        loadFail st plugin.id (.init plugin.id) "插件模块中未找到IPlugin实现类"
    | .initFail d => loadFail st plugin.id (.init plugin.id) d
    | .loads onLoad onUnload =>
        let sandbox := PluginSandbox.init plugin.id
        let api := PluginAPI.init plugin.id plugin.permissions
        match onLoad api with
        | .ok api' =>
            let sb1 := (sandbox.execute_safely (PyResult.ok api')).1
            let sb2 := { sb1 with
                         plugin_instance := some ⟨onUnload⟩,
                         api := some api',
                         is_loaded := true }
            let mods :=
              if st.loaded_modules.contains plugin.id then st.loaded_modules
              else st.loaded_modules ++ [plugin.id]
            ({ st with sandboxes := dictSet st.sandboxes plugin.id sb2, loaded_modules := mods },
             none)
        | .exc k d t =>
            let res := sandbox.execute_safely (PyResult.exc (α := PluginAPI) k d t)
            loadFail st plugin.id res.1 ("插件加载失败: " ++ (res.2.2.2.getD ""))

/-- The `PluginAPI` reference that `_unload_plugin` releases at line 713
(`sandbox.api = None`) without any further use: the API object in the state
it has at unload time. `none` when no loaded instance is tracked. -/
def unload_released_api (st : ManagerState) (pid : String) : Option PluginAPI :=
  match dictGet st.sandboxes pid with
  | some sb => if sb.plugin_instance.isSome then sb.api else none
  | none => none

/-- `_unload_plugin` (lines 704-721): calls `on_unload` through the sandbox
(the outcome is discarded), clears the sandbox's instance/API references and
loaded flag, and drops the module. -/
def unload_plugin (st : ManagerState) (pid : String) : ManagerState :=
  let st1 :=
    match dictGet st.sandboxes pid with
    | some sb =>
        match sb.plugin_instance with
        | some inst =>
            let sb1 := (sb.execute_safely inst.on_unload).1
            let sb2 := { sb1 with is_loaded := false, plugin_instance := none, api := none }
            { st with sandboxes := dictSet st.sandboxes pid sb2 }
        | none => st
    | none => st
  { st1 with loaded_modules := st1.loaded_modules.filter (fun m => !(m == pid)) }

/-- `enable_plugin` (lines 594-615): unknown id raises; an already-enabled
record is a no-op; otherwise load, then persist `enabled = true`. -/
def enable_plugin (st : ManagerState) (pid : String) :
    ManagerState × Option String :=
  match dbGetPlugin st.db pid with
  | none => (st, some ("插件不存在: " ++ pid))
  | some p =>
      if p.enabled then (st, none)
      else
        match load_plugin st p with
        | (st1, some e) => (st1, some e)
        | (st1, none) => ({ st1 with db := dbUpdatePluginStatus st1.db pid true }, none)

/-- `disable_plugin` (lines 617-638): unknown id raises; an already-disabled
record is a no-op; otherwise unload, then persist `enabled = false`. -/
def disable_plugin (st : ManagerState) (pid : String) :
    ManagerState × Option String :=
  match dbGetPlugin st.db pid with
  | none => (st, some ("插件不存在: " ++ pid))
  | some p =>
      if !p.enabled then (st, none)
      else
        let st1 := unload_plugin st pid
        ({ st1 with db := dbUpdatePluginStatus st1.db pid false }, none)

/-- Helper for `install_plugin`: extraction of one required string field from
the manifest dict (`manifest[k]`). Non-string values cannot inhabit the typed
`PluginInfo` record and are modelled as extraction failures; validation
guarantees they do not arise for the manifests the claims quantify over. -/
def getStrField (kvs : List (String × PyVal)) (k : String) : Except String String :=
  match dictGet kvs k with
  | some (.str s) => .ok s
  | some _ => .error ("TypeError: field is not a string: " ++ k)
  | none => .error ("KeyError: " ++ k)

/-- Helper for `install_plugin`: `manifest.get(k, "")`. -/
def getStrFieldD (kvs : List (String × PyVal)) (k : String) : Except String String :=
  match dictGet kvs k with
  | some (.str s) => .ok s
  | some _ => .error ("TypeError: field is not a string: " ++ k)
  | none => .ok ""

/-- Helper for `install_plugin`: `manifest.get("permissions", [])` as a list
of permission strings. -/
def getPermsField (kvs : List (String × PyVal)) : Except String (List String) :=
  match dictGet kvs "permissions" with
  | none => .ok []
  | some (.arr ps) =>
      ps.mapM (fun p => match p with
        | .str s => Except.ok s
        | _ => Except.error "TypeError: permission is not a string")
  | some _ => .error "TypeError: permissions is not a list"

/-- The `PluginInfo(...)` construction of `install_plugin` (lines 507-531):
reads the manifest fields into a record with `enabled = False` and the
current timestamp. -/
def extractPluginInfo (v : PyVal) (now : Nat) : Except String PluginInfo :=
  match v with
  | .obj kvs => do
      let id ← getStrField kvs "id"
      let name ← getStrField kvs "name"
      let version ← getStrField kvs "version"
      let author ← getStrFieldD kvs "author"
      let description ← getStrFieldD kvs "description"
      let entry_point ← getStrField kvs "entry_point"
      let permissions ← getPermsField kvs
      pure { id := id, name := name, version := version, author := author,
             description := description, entry_point := entry_point,
             permissions := permissions, enabled := false, installed_at := now }
  | _ => .error "TypeError: manifest is not a dict"

/-- `install_plugin` (lines 488-536): validate, read the manifest, reject a
duplicate id, materialise the package's code (overwriting any stale files),
and persist the record with `enabled = false`. The `Except` error is the
raised exception's message. -/
def install_plugin (st : ManagerState) (pkg : PluginPackage) (now : Nat) :
    ManagerState × Except String PluginInfo :=
  let (valid, err) := validatePlugin pkg
  if !valid then (st, .error ("插件验证失败: " ++ err))
  else
    match readManifest pkg with
    | .error e => (st, .error e)
    | .ok m =>
        match extractPluginInfo m now with
        | .error e => (st, .error e)
        | .ok info =>
            match dbGetPlugin st.db info.id with
            | some _ => (st, .error ("插件已安装: " ++ info.id))
            | none =>
                let st1 := { st with files := dictSet st.files info.id pkg.code }
                ({ st1 with db := dbAddPlugin st1.db info }, .ok info)

/-- `uninstall_plugin` (lines 564-592): unknown id raises; an enabled plugin
is disabled first; then the install directory, the record and the sandbox
entry are removed. -/
def uninstall_plugin (st : ManagerState) (pid : String) :
    ManagerState × Option String :=
  match dbGetPlugin st.db pid with
  | none => (st, some ("插件不存在: " ++ pid))
  | some p =>
      let st1 := if p.enabled then (disable_plugin st pid).1 else st
      let st2 := { st1 with files := dictDel st1.files pid }
      let st3 := { st2 with db := dbDeletePlugin st2.db pid }
      ({ st3 with sandboxes := dictDel st3.sandboxes pid }, none)

/-- `get_installed_plugins` (lines 723-730). -/
def get_installed_plugins (st : ManagerState) : List PluginInfo :=
  dbGetAllPlugins st.db

/-- `get_plugin` (lines 741-751). -/
def get_plugin (st : ManagerState) (pid : String) : Option PluginInfo :=
  dbGetPlugin st.db pid

/-- `is_plugin_loaded` (lines 753-764). -/
def is_plugin_loaded (st : ManagerState) (pid : String) : Bool :=
  match dictGet st.sandboxes pid with
  | some sb => sb.is_loaded
  | none => false

/-- `get_plugin_error` (lines 766-777). -/
def get_plugin_error (st : ManagerState) (pid : String) : Option String :=
  (dictGet st.sandboxes pid).bind (·.last_error)

/-- The loop body of `load_enabled_plugins` (lines 821-828): each plugin is
loaded inside its own `try`; a failure records the message in the result map
and persists `enabled = false` for that plugin only, and iteration always
continues. -/
def loadEnabledGo (st : ManagerState) :
    List PluginInfo → ManagerState × List (String × Option String)
  | [] => (st, [])
  | p :: rest =>
      match load_plugin st p with
      | (st1, none) =>
          ((loadEnabledGo st1 rest).1,
           (p.id, none) :: (loadEnabledGo st1 rest).2)
      | (st1, some e) =>
          ((loadEnabledGo { st1 with db := dbUpdatePluginStatus st1.db p.id false } rest).1,
           (p.id, some e) ::
             (loadEnabledGo { st1 with db := dbUpdatePluginStatus st1.db p.id false } rest).2)

/-- `load_enabled_plugins` (lines 809-830): iterates over the persisted
records with `enabled = true`; the result map (insertion-ordered) has the
outcome per plugin id. -/
def load_enabled_plugins (st : ManagerState) :
    ManagerState × List (String × Option String) :=
  loadEnabledGo st (dbGetEnabledPlugins st.db)

/-- `unload_all_plugins` (lines 844-861): unloads every tracked plugin and
clears the sandbox and module maps. -/
def unload_all_plugins (st : ManagerState) : ManagerState :=
  let st1 := st.sandboxes.foldl (fun s e => unload_plugin s e.1) st
  { st1 with sandboxes := [], loaded_modules := [] }

end PluginManager

/-! ### Basic lemmas about the dict and string models -/

/-- First character of a string, the discriminator used to tell the
validator's error messages apart. -/
def headChar (s : String) : Option Char := s.data.head?

theorem data_ne_nil_of_ne_empty {s : String} (h : s ≠ "") : s.data ≠ [] := by
  intro hd
  exact h (by cases s; simp_all)

theorem append_ne_empty (s t : String) (h : s ≠ "") : s ++ t ≠ "" := by
  intro hc
  have hdata : (s ++ t).data = [] := by rw [hc]
  rw [String.data_append] at hdata
  exact data_ne_nil_of_ne_empty h (List.append_eq_nil.mp hdata).1

theorem headChar_append (s t : String) (h : s ≠ "") :
    headChar (s ++ t) = headChar s := by
  unfold headChar
  rw [String.data_append, List.head?_append]
  cases hd : s.data with
  | nil => exact absurd hd (data_ne_nil_of_ne_empty h)
  | cons c cs => simp

theorem ne_empty_of_headChar {s : String} {c : Char} (h : headChar s = some c) :
    s ≠ "" := by
  intro hc
  rw [hc] at h
  simp [headChar] at h

theorem ne_of_headChar_ne {s t : String} (h : headChar s ≠ headChar t) : s ≠ t := by
  intro hc
  exact h (by rw [hc])

theorem dictGet_map_upd_self (kvs : List (String × α)) (k : String) (v : α)
    (h : (kvs.find? (fun e => e.1 == k)).isSome = true) :
    dictGet (kvs.map (fun e => if e.1 == k then (e.1, v) else e)) k = some v := by
  induction kvs with
  | nil => simp [List.find?] at h
  | cons hd tl ih =>
      by_cases hk : hd.1 == k
      · simp [dictGet, List.find?, hk]
      · simp only [List.find?, hk] at h
        simp only [List.map, hk, if_false, Bool.false_eq_true]
        simpa [dictGet, List.find?, hk] using ih h

theorem dictGet_append_single_self (kvs : List (String × α)) (k : String) (v : α)
    (h : (kvs.find? (fun e => e.1 == k)) = none) :
    dictGet (kvs ++ [(k, v)]) k = some v := by
  induction kvs with
  | nil => simp [dictGet, List.find?]
  | cons hd tl ih =>
      by_cases hk : hd.1 == k
      · simp [List.find?, hk] at h
      · simp only [List.find?, hk] at h
        simpa [dictGet, List.find?, hk] using ih h

theorem dictGet_dictSet_self (kvs : List (String × α)) (k : String) (v : α) :
    dictGet (dictSet kvs k v) k = some v := by
  unfold dictSet
  cases h : (kvs.find? (fun e => e.1 == k)) with
  | none => simpa [h] using dictGet_append_single_self kvs k v h
  | some e =>
      have : (kvs.find? (fun e => e.1 == k)).isSome = true := by simp [h]
      simpa [h] using dictGet_map_upd_self kvs k v this

theorem dictGet_map_upd_ne (kvs : List (String × α)) (k q : String) (v : α)
    (h : q ≠ k) :
    dictGet (kvs.map (fun e => if e.1 == k then (e.1, v) else e)) q =
      dictGet kvs q := by
  induction kvs with
  | nil => simp
  | cons hd tl ih =>
      by_cases hk : hd.1 == k
      · have h1 : hd.1 = k := by simpa using hk
        have hq : (hd.1 == q) = false := by simp [h1, Ne.symm h]
        simpa [dictGet, List.find?, hk, hq] using ih
      · simp only [List.map, hk, if_false, Bool.false_eq_true]
        by_cases hq : hd.1 == q
        · simp [dictGet, List.find?, hq]
        · simpa [dictGet, List.find?, hq] using ih

theorem dictGet_append_single_ne (kvs : List (String × α)) (k q : String) (v : α)
    (h : q ≠ k) : dictGet (kvs ++ [(k, v)]) q = dictGet kvs q := by
  have hkq : (k == q) = false := by simp [Ne.symm h]
  induction kvs with
  | nil => simp [dictGet, List.find?, hkq]
  | cons hd tl ih =>
      by_cases hq : hd.1 == q
      · simp [dictGet, List.find?, hq]
      · simpa [dictGet, List.find?, hq] using ih

theorem dictGet_dictSet_ne (kvs : List (String × α)) (k q : String) (v : α)
    (h : q ≠ k) : dictGet (dictSet kvs k v) q = dictGet kvs q := by
  unfold dictSet
  by_cases hs : (kvs.find? (fun e => e.1 == k)).isSome
  · simpa [hs] using dictGet_map_upd_ne kvs k q v h
  · simpa [hs] using dictGet_append_single_ne kvs k q v h

theorem strContains_append_suffix (p s : String) :
    strContains (p ++ s) s = true := by
  unfold strContains
  rw [List.any_eq_true]
  have hcat : (p ++ s).toList = p.toList ++ s.toList := by
    simp [String.toList, String.data_append]
  refine ⟨p.toList.length, ?_, ?_⟩
  · rw [List.mem_range, hcat, List.length_append]
    omega
  · rw [hcat, List.drop_left, List.take_length]
    exact beq_self_eq_true _

theorem dbGetPlugin_id {db : List PluginInfo} {pid : String} {p : PluginInfo}
    (h : dbGetPlugin db pid = some p) : p.id = pid := by
  unfold dbGetPlugin at h
  simpa using List.find?_some h

/-! ### C1: error isolation in the execution sandbox -/

/-- C1: `execute_safely` converts every outcome of the wrapped call into a
returned triple instead of raising: a normal completion yields
`(true, result, none)` with the sandbox unchanged; an exception increments
`error_count` by exactly one, records the message composed of the failure
kind, the failure detail and the captured trace as `last_error`, and yields
`(false, none, last_error)`; and `should_disable()` is true exactly when
`error_count >= max_errors`, which defaults to 5. -/
theorem execute_safely_spec {α : Type} (sb : PluginSandbox) (k d t : String)
    (r : α) (pid : String) :
    sb.execute_safely (PyResult.ok r) = (sb, (true, some r, none))
  ∧ ((sb.execute_safely (PyResult.exc (α := α) k d t)).1.error_count
       = sb.error_count + 1
     ∧ (sb.execute_safely (PyResult.exc (α := α) k d t)).1.last_error
         = some (k ++ ": " ++ d ++ "\n" ++ t)
     ∧ (sb.execute_safely (PyResult.exc (α := α) k d t)).2
         = (false, none, (sb.execute_safely (PyResult.exc (α := α) k d t)).1.last_error))
  ∧ (sb.should_disable = true ↔ sb.max_errors ≤ sb.error_count)
  ∧ (PluginSandbox.init pid).max_errors = 5 := by
  refine ⟨rfl, ⟨rfl, rfl, rfl⟩, ?_, rfl⟩
  simp [PluginSandbox.should_disable]

/-! ### C6: permission-gated storage on the capability API -/

/-- C6: without the `storage` permission, `store_data` and `delete_data`
return false leaving the API (and so its key/value store) unchanged and
`get_data` returns the caller-supplied default; with `storage` granted, a
stored value round-trips through `get_data` exactly. -/
theorem storage_permission_gate (api : PluginAPI) (k : String) (v d : PyVal) :
    (api.permissions.contains "storage" = false →
       api.store_data k v = (api, false)
     ∧ api.delete_data k = (api, false)
     ∧ api.get_data k d = d)
  ∧ (api.permissions.contains "storage" = true →
       ((api.store_data k v).1).get_data k d = v) := by
  constructor
  · intro h
    have h' : "storage" ∉ api.permissions := by simpa using h
    refine ⟨?_, ?_, ?_⟩ <;>
      simp [PluginAPI.store_data, PluginAPI.delete_data, PluginAPI.get_data,
            PluginAPI.check_permission, h']
  · intro h
    have h' : "storage" ∈ api.permissions := by simpa using h
    simp [PluginAPI.store_data, PluginAPI.get_data, PluginAPI.check_permission,
          h', dictGet_dictSet_self]

/-- Witness for C6 at a concrete API without and with the permission. -/
theorem storage_permission_gate_witness :
    ((PluginAPI.init "p" []).store_data "k" (PyVal.str "v")
       = (PluginAPI.init "p" [], false)
     ∧ (PluginAPI.init "p" []).delete_data "k" = (PluginAPI.init "p" [], false)
     ∧ (PluginAPI.init "p" []).get_data "k" PyVal.null = PyVal.null)
  ∧ (((PluginAPI.init "p" ["storage"]).store_data "k" (PyVal.str "v")).1).get_data
      "k" PyVal.null = PyVal.str "v" :=
  ⟨(storage_permission_gate (PluginAPI.init "p" []) "k" (PyVal.str "v")
      PyVal.null).1 (by decide),
   (storage_permission_gate (PluginAPI.init "p" ["storage"]) "k" (PyVal.str "v")
      PyVal.null).2 (by decide)⟩

/-! ### Lemmas about the shape of the validator's results -/

/-- Any short-circuit produced by the required-field loop is a failure whose
message starts with the character 清 (both field error messages do). -/
theorem checkRequiredFields_msg (v : PyVal) (fields : List String) (b : Bool)
    (m : String) (h : checkRequiredFields v fields = .ok (some (b, m))) :
    b = false ∧ headChar m = some '清' := by
  induction fields with
  | nil => simp [checkRequiredFields, pure, Except.pure] at h
  | cons f rest ih =>
      unfold checkRequiredFields at h
      cases hc : pyContains v f with
      | error e => rw [hc] at h; simp [Bind.bind, Except.bind] at h
      | ok present =>
          rw [hc] at h
          simp only [Bind.bind, Except.bind] at h
          cases present with
          | false =>
              simp [pure, Except.pure] at h
              refine ⟨h.1, ?_⟩
              rw [← h.2, headChar_append _ _ (by decide)]
              decide
          | true =>
              simp only [Bool.not_true, Bool.false_eq_true, if_false] at h
              cases hs : pySubscript v f with
              | error e => rw [hs] at h; simp [Bind.bind, Except.bind] at h
              | ok val =>
                  rw [hs] at h
                  simp only [Bind.bind, Except.bind] at h
                  cases ht : truthy val with
                  | false =>
                      simp [ht, pure, Except.pure] at h
                      refine ⟨h.1, ?_⟩
                      rw [← h.2, headChar_append _ _ (by decide)]
                      decide
                  | true =>
                      simp only [ht, Bool.not_true, Bool.false_eq_true, if_false] at h
                      exact ih h

/-- The permission loop returns success with an empty message, or a failure
whose message starts with 未. -/
theorem checkPermissionsList_msg (ps : List PyVal) :
    checkPermissionsList ps = (true, "") ∨
    ((checkPermissionsList ps).1 = false ∧
      headChar (checkPermissionsList ps).2 = some '未') := by
  induction ps with
  | nil => left; rfl
  | cons p rest ih =>
      unfold checkPermissionsList
      by_cases hp : (allowedPermissions.any (fun a => p.eqStr a)) = true
      · simpa [hp] using ih
      · right
        simp only [Bool.not_eq_true] at hp
        constructor
        · simp [hp]
        · simp only [hp, Bool.not_false, if_true]
          show headChar ("未知的权限: " ++ pyStr p) = some '未'
          rw [headChar_append _ _ (by decide)]
          decide

/-- Abbreviation for the branches of `validateManifestVal_msg` where the
result is a literal failure pair equated componentwise by `simp`. -/
theorem headChar_msg_of_eq {m lit : String} {c : Char} (h : m = lit)
    (hc : headChar lit = some c) : headChar m = some c := by rw [h]; exact hc

/-- Every result `_validate_manifest` returns (rather than raises) is either
the success pair `(true, "")` or a failure whose message starts with one of
清, p, 未, 入 — in particular never with 插 and never empty. -/
theorem validateManifestVal_msg (v : PyVal) (b : Bool) (m : String)
    (h : validateManifestVal v = .ok (b, m)) :
    (b = true ∧ m = "") ∨
    (b = false ∧ ∃ c, headChar m = some c ∧ c ≠ '插' ∧ c ≠ '读') := by
  unfold validateManifestVal at h
  cases hc : checkRequiredFields v requiredManifestFields with
  | error e => rw [hc] at h; simp [Bind.bind, Except.bind] at h
  | ok res =>
      rw [hc] at h
      simp only [Bind.bind, Except.bind] at h
      cases res with
      | some r =>
          simp only [pure, Except.pure, Except.ok.injEq] at h
          obtain ⟨hb, hm⟩ := checkRequiredFields_msg v _ r.1 r.2 (by rw [hc])
          right
          rw [h] at hb hm
          exact ⟨hb, '清', hm, by decide, by decide⟩
      | none =>
          cases v with
          | obj kvs =>
              simp only at h
              cases hperm : (dictGet kvs "permissions").getD (.arr []) with
              | arr ps =>
                  rw [hperm] at h
                  simp only at h
                  rcases hsplit : checkPermissionsList ps with ⟨bb, mm⟩
                  rcases checkPermissionsList_msg ps with hcp | ⟨hcp1, hcp2⟩
                  · rw [hsplit] at hcp
                    have hbb : bb = true := congrArg Prod.fst hcp
                    rw [hsplit] at h
                    simp only [hbb, Bool.not_true, Bool.false_eq_true, if_false] at h
                    cases hs : pySubscript (PyVal.obj kvs) "entry_point" with
                    | error e => rw [hs] at h; simp [Bind.bind, Except.bind] at h
                    | ok val =>
                        rw [hs] at h
                        simp only [Bind.bind, Except.bind] at h
                        cases val with
                        | str s =>
                            by_cases hend : strEndsWith s ".py" = true
                            · left
                              simp [hend, pure, Except.pure] at h
                              exact ⟨h.1, h.2.symm⟩
                            · right
                              have hend' : strEndsWith s ".py" = false := by
                                simpa using hend
                              simp [hend', pure, Except.pure] at h
                              exact ⟨h.1, '入',
                                     headChar_msg_of_eq h.2.symm (by decide),
                                     by decide, by decide⟩
                        | num n => simp at h
                        | bool b2 => simp at h
                        | null => simp at h
                        | arr xs => simp at h
                        | obj o => simp at h
                  · rw [hsplit] at hcp1 hcp2
                    simp only at hcp1 hcp2
                    rw [hsplit] at h
                    rw [hcp1] at h
                    simp [pure, Except.pure] at h
                    exact Or.inr ⟨h.1, '未', by rw [← h.2]; exact hcp2,
                                  by decide, by decide⟩
              | str s =>
                  rw [hperm] at h; simp [pure, Except.pure] at h
                  exact Or.inr ⟨h.1, 'p', headChar_msg_of_eq h.2.symm (by decide),
                                by decide, by decide⟩
              | num n =>
                  rw [hperm] at h; simp [pure, Except.pure] at h
                  exact Or.inr ⟨h.1, 'p', headChar_msg_of_eq h.2.symm (by decide),
                                by decide, by decide⟩
              | bool bb =>
                  rw [hperm] at h; simp [pure, Except.pure] at h
                  exact Or.inr ⟨h.1, 'p', headChar_msg_of_eq h.2.symm (by decide),
                                by decide, by decide⟩
              | null =>
                  rw [hperm] at h; simp [pure, Except.pure] at h
                  exact Or.inr ⟨h.1, 'p', headChar_msg_of_eq h.2.symm (by decide),
                                by decide, by decide⟩
              | obj o =>
                  rw [hperm] at h; simp [pure, Except.pure] at h
                  exact Or.inr ⟨h.1, 'p', headChar_msg_of_eq h.2.symm (by decide),
                                by decide, by decide⟩
          | str s => simp at h
          | num n => simp at h
          | bool bb => simp at h
          | null => simp at h
          | arr xs => simp at h

theorem pair_ne_of_fst_ne {α β : Type} {a c : α} {b d : β} (h : a ≠ c) :
    (a, b) ≠ (c, d) := fun hc => h (congrArg Prod.fst hc)

theorem pair_ne_of_snd_ne {α β : Type} {a c : α} {b d : β} (h : b ≠ d) :
    (a, b) ≠ (c, d) := fun hc => h (congrArg Prod.snd hc)

/-- Shape of `_validate_zip_plugin`'s result: success is exactly `(true, "")`
and every failure carries a non-empty reason. -/
theorem validateZipPlugin_shape (entries : List (String × ManifestRead)) :
    validateZipPlugin entries = (true, "") ∨
    ((validateZipPlugin entries).1 = false ∧ (validateZipPlugin entries).2 ≠ "") := by
  cases hf : entries.find? (fun e => strEndsWith e.1 "plugin.json") with
  | none =>
      right
      simp only [validateZipPlugin, hf]
      exact ⟨by trivial, by decide⟩
  | some ent =>
      rcases ent with ⟨name, mr⟩
      cases mr with
      | readFail msg =>
          right
          simp only [validateZipPlugin, hf]
          exact ⟨by trivial, append_ne_empty _ _ (by decide)⟩
      | parseFail msg =>
          right
          simp only [validateZipPlugin, hf]
          exact ⟨by trivial, append_ne_empty _ _ (by decide)⟩
      | parsed v =>
          cases hv : validateManifestVal v with
          | error e2 =>
              right
              simp only [validateZipPlugin, hf, hv]
              exact ⟨by trivial, append_ne_empty _ _ (by decide)⟩
          | ok r =>
              rcases r with ⟨b, m⟩
              rcases validateManifestVal_msg v b m hv with ⟨hb, hm⟩ | ⟨hb, c, hcm, _, _⟩
              · left
                simp only [validateZipPlugin, hf, hv, hb, hm]
              · right
                simp only [validateZipPlugin, hf, hv]
                exact ⟨hb, ne_empty_of_headChar hcm⟩

/-- Shape of `_validate_dir_plugin`'s result, as for the zip variant. -/
theorem validateDirPlugin_shape (mf : Option ManifestRead) :
    validateDirPlugin mf = (true, "") ∨
    ((validateDirPlugin mf).1 = false ∧ (validateDirPlugin mf).2 ≠ "") := by
  cases mf with
  | none => right; exact ⟨by trivial, by decide⟩
  | some mr =>
      cases mr with
      | readFail msg => right; exact ⟨by trivial, append_ne_empty _ _ (by decide)⟩
      | parseFail msg => right; exact ⟨by trivial, append_ne_empty _ _ (by decide)⟩
      | parsed v =>
          cases hv : validateManifestVal v with
          | error e2 =>
              right
              simp only [validateDirPlugin, hv]
              exact ⟨by trivial, append_ne_empty _ _ (by decide)⟩
          | ok r =>
              rcases r with ⟨b, m⟩
              rcases validateManifestVal_msg v b m hv with ⟨hb, hm⟩ | ⟨hb, c, hcm, _, _⟩
              · left
                simp only [validateDirPlugin, hv, hb, hm]
              · right
                simp only [validateDirPlugin, hv]
                exact ⟨hb, ne_empty_of_headChar hcm⟩

/-! ### C9: validate_plugin is total with a definite result shape -/

/-- C9: for every package shape — nonexistent path, unsupported shape,
corrupt archive, unreadable or malformed manifest — `validate_plugin`
returns a pair rather than raising (it is a total function here), where a
fully valid package yields `(true, "")` and every malformed input yields
`(false, reason)` with a non-empty reason. -/
theorem validate_plugin_total_shape (pkg : PluginPackage) :
    validatePlugin pkg = (true, "") ∨
    ((validatePlugin pkg).1 = false ∧ (validatePlugin pkg).2 ≠ "") := by
  cases pkg with
  | missing path => right; exact ⟨by trivial, append_ne_empty _ _ (by decide)⟩
  | badZip => right; exact ⟨by trivial, by decide⟩
  | unsupported => right; exact ⟨by trivial, by decide⟩
  | zipArch entries code => exact validateZipPlugin_shape entries
  | dirPkg mf code => exact validateDirPlugin_shape mf

/-! ### C8: how the manifest file is located -/

/-- Predicate following the spec's words, kept for comparison with the code:
an archive entry whose file name (its final path component) is exactly
`plugin.json`. -/
def specManifestFileName (name : String) : Bool :=
  ((name.toList.reverse.takeWhile (fun c => !(c == '/'))).reverse : List Char)
    == "plugin.json".toList

/-- Counterexample to C8: in the archive whose only entry is named
`myplugin.json` no entry's file name is `plugin.json`, yet zip validation
does not report a missing manifest — it treats `myplugin.json` as the
manifest (the code matches entry names with `endswith("plugin.json")`). -/
theorem zip_manifest_lookup_ce :
    (["myplugin.json"].all (fun n => !(specManifestFileName n)) = true)
  ∧ validateZipPlugin [("myplugin.json", .readFail "boom")]
      = (false, "读取zip文件失败: boom")
  ∧ validateZipPlugin [("myplugin.json", .readFail "boom")]
      ≠ (false, "插件缺少清单文件: plugin.json") := by
  refine ⟨by decide, by decide, by decide⟩

/-- C8 as amended: zip validation locates the manifest as the first entry
whose name merely ends with `plugin.json`, and reports a missing manifest
exactly when no entry name ends with `plugin.json`; for directory packages
the manifest must be a readable top-level `plugin.json`. -/
theorem manifest_location_amended (entries : List (String × ManifestRead))
    (mf : Option ManifestRead) :
    (validateZipPlugin entries = (false, "插件缺少清单文件: plugin.json") ↔
       ∀ e ∈ entries, strEndsWith e.1 "plugin.json" = false)
  ∧ (validateDirPlugin mf = (false, "插件缺少清单文件: plugin.json") ↔ mf = none) := by
  constructor
  · constructor
    · intro hmiss
      cases hf : entries.find? (fun e => strEndsWith e.1 "plugin.json") with
      | none =>
          intro e he
          simpa using List.find?_eq_none.mp hf e he
      | some ent =>
          exfalso
          rcases ent with ⟨name, mr⟩
          cases mr with
          | readFail msg =>
              simp only [validateZipPlugin, hf] at hmiss
              exact pair_ne_of_snd_ne (ne_of_headChar_ne (by
                rw [headChar_append _ _ (by decide)]; decide)) hmiss
          | parseFail msg =>
              simp only [validateZipPlugin, hf] at hmiss
              exact pair_ne_of_snd_ne (ne_of_headChar_ne (by
                rw [headChar_append _ _ (by decide)]; decide)) hmiss
          | parsed v =>
              cases hv : validateManifestVal v with
              | error e2 =>
                  simp only [validateZipPlugin, hf, hv] at hmiss
                  exact pair_ne_of_snd_ne (ne_of_headChar_ne (by
                    rw [headChar_append _ _ (by decide)]; decide)) hmiss
              | ok r =>
                  rcases r with ⟨b, m⟩
                  simp only [validateZipPlugin, hf, hv] at hmiss
                  rcases validateManifestVal_msg v b m hv with ⟨hb, hm⟩ |
                    ⟨hb, c, hcm, hc1, _⟩
                  · rw [hb] at hmiss
                    exact pair_ne_of_fst_ne (by decide) hmiss
                  · refine pair_ne_of_snd_ne (ne_of_headChar_ne ?_) hmiss
                    rw [hcm, show headChar "插件缺少清单文件: plugin.json"
                          = some '插' from by decide]
                    simp [hc1]
    · intro hall
      have hf : entries.find? (fun e => strEndsWith e.1 "plugin.json") = none := by
        rw [List.find?_eq_none]
        intro e he
        simp [hall e he]
      simp only [validateZipPlugin, hf]
  · constructor
    · intro hmiss
      cases mf with
      | none => rfl
      | some mr =>
          exfalso
          cases mr with
          | readFail msg =>
              exact pair_ne_of_snd_ne (ne_of_headChar_ne (by
                rw [headChar_append _ _ (by decide)]; decide)) hmiss
          | parseFail msg =>
              exact pair_ne_of_snd_ne (ne_of_headChar_ne (by
                rw [headChar_append _ _ (by decide)]; decide)) hmiss
          | parsed v =>
              cases hv : validateManifestVal v with
              | error e2 =>
                  simp only [validateDirPlugin, hv] at hmiss
                  exact pair_ne_of_snd_ne (ne_of_headChar_ne (by
                    rw [headChar_append _ _ (by decide)]; decide)) hmiss
              | ok r =>
                  rcases r with ⟨b, m⟩
                  simp only [validateDirPlugin, hv] at hmiss
                  rcases validateManifestVal_msg v b m hv with ⟨hb, hm⟩ |
                    ⟨hb, c, hcm, hc1, _⟩
                  · rw [hb] at hmiss
                    exact pair_ne_of_fst_ne (by decide) hmiss
                  · refine pair_ne_of_snd_ne (ne_of_headChar_ne ?_) hmiss
                    rw [hcm, show headChar "插件缺少清单文件: plugin.json"
                          = some '插' from by decide]
                    simp [hc1]
    · intro h
      rw [h]
      rfl

/-- Witness for the amended C8 at a concrete archive and directory. -/
theorem manifest_location_amended_witness :
    (validateZipPlugin [("a.txt", .readFail "x"), ("b/c.py", .readFail "y")]
       = (false, "插件缺少清单文件: plugin.json"))
  ∧ validateDirPlugin none = (false, "插件缺少清单文件: plugin.json") :=
  ⟨(manifest_location_amended
      [("a.txt", .readFail "x"), ("b/c.py", .readFail "y")] none).1.mpr
     (by decide),
   (manifest_location_amended [] none).2.mpr rfl⟩

/-! ### C7: required-field and permission checks in the manifest -/

/-- A required field is missing from the manifest dict or carries a falsy
(empty) value — the condition the validator's field loop rejects. -/
def missingOrEmpty (kvs : List (String × PyVal)) (f : String) : Bool :=
  match dictGet kvs f with
  | none => true
  | some x => !truthy x

/-- The field loop stops at the first missing-or-empty required field and
names it in its error message. -/
theorem checkRequiredFields_firstBad (kvs : List (String × PyVal))
    (fields : List String) (f : String)
    (hf : fields.find? (fun g => missingOrEmpty kvs g) = some f) :
    ∃ m, checkRequiredFields (.obj kvs) fields = .ok (some (false, m)) ∧
         strContains m f = true := by
  induction fields with
  | nil => simp at hf
  | cons g rest ih =>
      by_cases hg : missingOrEmpty kvs g = true
      · have hfg : f = g := by
          rw [List.find?] at hf
          simp [hg] at hf
          exact hf.symm
        subst hfg
        unfold missingOrEmpty at hg
        unfold checkRequiredFields
        cases hd : dictGet kvs f with
        | none =>
            refine ⟨"清单缺少必需字段: " ++ f, ?_, strContains_append_suffix _ _⟩
            simp [pyContains, hd, Bind.bind, Except.bind, pure, Except.pure]
        | some x =>
            rw [hd] at hg
            simp only [Bool.not_eq_true'] at hg
            refine ⟨"清单字段不能为空: " ++ f, ?_, strContains_append_suffix _ _⟩
            simp [pyContains, pySubscript, hd, hg, Bind.bind, Except.bind,
                  pure, Except.pure]
      · have hg' : missingOrEmpty kvs g = false := by simpa using hg
        have hf' : rest.find? (fun g => missingOrEmpty kvs g) = some f := by
          rw [List.find?] at hf
          simpa [hg'] using hf
        obtain ⟨m, hm, hc⟩ := ih hf'
        refine ⟨m, ?_, hc⟩
        unfold checkRequiredFields
        unfold missingOrEmpty at hg'
        cases hd : dictGet kvs g with
        | none => rw [hd] at hg'; simp at hg'
        | some x =>
            rw [hd] at hg'
            simp only [Bool.not_eq_false] at hg'
            simp [pyContains, pySubscript, hd, hg', Bind.bind, Except.bind, hm]

/-- When every required field is present and truthy the field loop passes. -/
theorem checkRequiredFields_allOk (kvs : List (String × PyVal))
    (fields : List String)
    (hall : ∀ f ∈ fields, missingOrEmpty kvs f = false) :
    checkRequiredFields (.obj kvs) fields = .ok none := by
  induction fields with
  | nil => rfl
  | cons g rest ih =>
      have hg := hall g (by simp)
      unfold missingOrEmpty at hg
      unfold checkRequiredFields
      cases hd : dictGet kvs g with
      | none => rw [hd] at hg; simp at hg
      | some x =>
          rw [hd] at hg
          simp only [Bool.not_eq_false] at hg
          simp only [pyContains, pySubscript, hd, hg, Bind.bind, Except.bind,
                     Option.isSome_some, Bool.not_true, Bool.false_eq_true,
                     if_false]
          exact ih (fun f hfm => hall f (by simp [hfm]))

/-- The permission loop stops at the first disallowed entry; when that entry
is the string `s`, the error message is composed from `s`. -/
theorem checkPermissionsList_firstBad (ps : List PyVal) (s : String)
    (hf : ps.find? (fun p => !(allowedPermissions.any (fun a => p.eqStr a)))
            = some (.str s)) :
    checkPermissionsList ps = (false, "未知的权限: " ++ s) := by
  induction ps with
  | nil => simp at hf
  | cons p rest ih =>
      by_cases hp : (allowedPermissions.any (fun a => p.eqStr a)) = true
      · have hf' : rest.find?
            (fun p => !(allowedPermissions.any (fun a => p.eqStr a)))
              = some (.str s) := by
          rw [List.find?] at hf
          simpa [hp] using hf
        unfold checkPermissionsList
        simp only [hp, Bool.not_true, Bool.false_eq_true, if_false]
        exact ih hf'
      · have hp' : (allowedPermissions.any (fun a => p.eqStr a)) = false := by
          simpa using hp
        have hps : p = .str s := by
          rw [List.find?] at hf
          simp only [hp', Bool.not_false, Option.some.injEq] at hf
          exact hf
        subst hps
        unfold checkPermissionsList
        simp [hp', pyStr]

/-- C7: for every parsed manifest dict, (a) if some required field among
id, name, version, entry_point is missing or empty, validation fails with a
message containing the first such field's name; (b) otherwise, if the
permissions list's first entry outside the fixed allow-list is the string
`s`, validation fails with a message containing `s`. -/
theorem manifest_validation_errors (kvs : List (String × PyVal)) :
    (∀ f, requiredManifestFields.find? (fun g => missingOrEmpty kvs g) = some f →
       ∃ m, validateManifestVal (.obj kvs) = .ok (false, m) ∧
            strContains m f = true)
  ∧ (∀ ps s, (∀ f ∈ requiredManifestFields, missingOrEmpty kvs f = false) →
       dictGet kvs "permissions" = some (.arr ps) →
       ps.find? (fun p => !(allowedPermissions.any (fun a => p.eqStr a)))
         = some (.str s) →
       ∃ m, validateManifestVal (.obj kvs) = .ok (false, m) ∧
            strContains m s = true) := by
  constructor
  · intro f hf
    obtain ⟨m, hm, hc⟩ := checkRequiredFields_firstBad kvs _ f hf
    refine ⟨m, ?_, hc⟩
    unfold validateManifestVal
    rw [hm]
    simp [Bind.bind, Except.bind, pure, Except.pure]
  · intro ps s hall hperm hfind
    have h1 := checkRequiredFields_allOk kvs _ hall
    have h2 := checkPermissionsList_firstBad ps s hfind
    refine ⟨"未知的权限: " ++ s, ?_, strContains_append_suffix _ _⟩
    unfold validateManifestVal
    rw [h1]
    simp [Bind.bind, Except.bind, hperm, h2, pure, Except.pure]

/-- Witness for C7: a manifest missing `name` is rejected naming `name`; a
manifest with unknown permission `root` is rejected naming `root`. -/
theorem manifest_validation_errors_witness :
    (∃ m, validateManifestVal (.obj [("id", PyVal.str "x")]) = .ok (false, m) ∧
       strContains m "name" = true)
  ∧ (∃ m, validateManifestVal (.obj
        [("id", PyVal.str "x"), ("name", PyVal.str "X"),
         ("version", PyVal.str "1"), ("entry_point", PyVal.str "m.py"),
         ("permissions", PyVal.arr [PyVal.str "root"])]) = .ok (false, m) ∧
       strContains m "root" = true) :=
  ⟨(manifest_validation_errors [("id", PyVal.str "x")]).1 "name" (by decide),
   (manifest_validation_errors
      [("id", PyVal.str "x"), ("name", PyVal.str "X"),
       ("version", PyVal.str "1"), ("entry_point", PyVal.str "m.py"),
       ("permissions", PyVal.arr [PyVal.str "root"])]).2
     [PyVal.str "root"] "root" (by decide) rfl rfl⟩

/-! ### Concrete demo plugin, mirroring the spec's demo scenario (spec §8)
and the property-test fixtures (tests/property/test_plugin_properties.py). -/

/-- A conforming plugin whose `on_load` stores `"k" -> "v"` through its
API. -/
def demoStoringLoad : PluginAPI → PyResult PluginAPI :=
  fun a => .ok (a.store_data "k" (.str "v")).1

/-- The API state `demoStoringLoad` leaves behind. -/
def demoApi : PluginAPI :=
  ((PluginAPI.init "demo" ["storage"]).store_data "k" (.str "v")).1

/-- The demo manifest `{id: demo, name: Demo, version: 1.0.0,
entry_point: main.py, permissions: [storage]}`. -/
def demoManifestVal : PyVal :=
  .obj [("id", .str "demo"), ("name", .str "Demo"),
        ("version", .str "1.0.0"), ("entry_point", .str "main.py"),
        ("permissions", .arr [.str "storage"])]

/-- The demo package as a directory package. -/
def demoPkg : PluginPackage :=
  .dirPkg (some (.parsed demoManifestVal)) (.loads demoStoringLoad (.ok ()))

/-- Manager state reached by installing and enabling the demo plugin from a
fresh manager. -/
def demoLoadedState : ManagerState :=
  (PluginManager.enable_plugin
    (PluginManager.install_plugin (PluginManager.init [] []) demoPkg 0).1
    "demo").1

/-! ### C10: enabling an already-enabled record is a pure no-op -/

/-- C10: when the persisted record is already enabled, `enable_plugin`
returns immediately without loading anything — the entire manager state
(sandbox map, loaded-module map, persistent store, install directory) is
returned unchanged, so `is_plugin_loaded` keeps its prior value; and a
freshly constructed manager (as after a process restart) reports the plugin
as not loaded until an explicit load happens. -/
theorem enable_already_enabled_noop (st : ManagerState) (pid : String)
    (p : PluginInfo) (hp : dbGetPlugin st.db pid = some p)
    (he : p.enabled = true) :
    PluginManager.enable_plugin st pid = (st, none)
  ∧ ∀ (db : List PluginInfo) (files : List (String × LoadBehavior)),
      PluginManager.is_plugin_loaded (PluginManager.init db files) pid = false := by
  constructor
  · unfold PluginManager.enable_plugin
    rw [hp]
    simp [he]
  · intro db files
    rfl

/-- Witness for C10 at a one-record database whose record is enabled. -/
theorem enable_already_enabled_noop_witness :
    PluginManager.enable_plugin
      { db := [{ id := "demo", name := "Demo", version := "1.0.0",
                 author := "", description := "", entry_point := "main.py",
                 permissions := ["storage"], enabled := true,
                 installed_at := 0 }] } "demo" =
      ({ db := [{ id := "demo", name := "Demo", version := "1.0.0",
                  author := "", description := "", entry_point := "main.py",
                  permissions := ["storage"], enabled := true,
                  installed_at := 0 }] }, none)
  ∧ ∀ (db : List PluginInfo) (files : List (String × LoadBehavior)),
      PluginManager.is_plugin_loaded (PluginManager.init db files) "demo" = false :=
  enable_already_enabled_noop _ "demo"
    { id := "demo", name := "Demo", version := "1.0.0", author := "",
      description := "", entry_point := "main.py", permissions := ["storage"],
      enabled := true, installed_at := 0 } (by decide) (by decide)

/-! ### C5: cleanup is never invoked at unload -/

/-- Counterexample to C5: after installing and enabling the demo plugin
(whose `on_load` stored `"k" -> "v"`), the `PluginAPI` object that
`_unload_plugin` releases at unload time (the reference `disable_plugin`
drops) still holds the stored data — its store was not cleared, so
`cleanup()` was not called on it. -/
theorem cleanup_not_called_ce :
    (PluginManager.unload_released_api demoLoadedState "demo").map
      PluginAPI.storage = some [("k", PyVal.str "v")]
  ∧ (PluginManager.unload_released_api demoLoadedState "demo").map
      PluginAPI.storage ≠ some ([] : List (String × PyVal)) := by
  refine ⟨rfl, ?_⟩
  intro h
  rw [show (PluginManager.unload_released_api demoLoadedState "demo").map
        PluginAPI.storage = some [("k", PyVal.str "v")] from rfl] at h
  simp at h

/-- C5 as amended: `cleanup()` itself clears the callback registry, the log
buffer and the stored data, but the manager never invokes it at unload:
`_unload_plugin` (the unload path used by both `disable_plugin` and
`unload_all_plugins`) releases the sandbox's API object unchanged — with
whatever callbacks, logs and data it still holds — and merely resets the
sandbox's instance and API references and its loaded flag. -/
theorem cleanup_amended (api : PluginAPI) (st : ManagerState) (pid : String)
    (sb : PluginSandbox) (inst : PluginInstance)
    (hsb : dictGet st.sandboxes pid = some sb)
    (hinst : sb.plugin_instance = some inst) :
    (api.cleanup.callbacks = [] ∧ api.cleanup.logs = [] ∧
     api.cleanup.storage = [])
  ∧ PluginManager.unload_released_api st pid = sb.api
  ∧ (dictGet (PluginManager.unload_plugin st pid).sandboxes pid).map
      (fun s => (s.api, s.plugin_instance.isSome, s.is_loaded))
      = some (none, false, false) := by
  refine ⟨⟨rfl, rfl, rfl⟩, ?_, ?_⟩
  · unfold PluginManager.unload_released_api
    rw [hsb]
    simp [hinst]
  · unfold PluginManager.unload_plugin
    rw [hsb]
    simp only [hinst]
    simp [dictGet_dictSet_self]

/-- Witness for the amended C5 at the loaded demo state. -/
theorem cleanup_amended_witness :
    (demoApi.cleanup.callbacks = [] ∧ demoApi.cleanup.logs = [] ∧
     demoApi.cleanup.storage = [])
  ∧ PluginManager.unload_released_api demoLoadedState "demo" = some demoApi
  ∧ (dictGet (PluginManager.unload_plugin demoLoadedState "demo").sandboxes
       "demo").map (fun s => (s.api, s.plugin_instance.isSome, s.is_loaded))
      = some (none, false, false) :=
  cleanup_amended demoApi demoLoadedState "demo"
    (PluginSandbox.mk "demo" (some ⟨PyResult.ok ()⟩) (some demoApi) true
      none 0 5) ⟨PyResult.ok ()⟩ rfl rfl

/-! ### C2: a plugin whose on_load always fails is not registered enabled -/

/-- C2: enabling an installed, disabled plugin whose `on_load` hook always
raises makes `enable_plugin` fail with a non-empty error, leaves the
persisted records entirely unchanged (`update_plugin_status(id, true)` is
never reached, so the enabled flag stays false), and afterwards
`get_plugin_error` returns non-empty error text. -/
theorem enable_failing_on_load (st : ManagerState) (pid : String)
    (p : PluginInfo) (onLoad : PluginAPI → PyResult PluginAPI)
    (onUnload : PyResult Unit)
    (hp : dbGetPlugin st.db pid = some p) (he : p.enabled = false)
    (hf : dictGet st.files p.id = some (.loads onLoad onUnload))
    (hfail : ∀ a, ∃ k d t, onLoad a = .exc k d t) :
    (∃ err, (PluginManager.enable_plugin st pid).2 = some err ∧ err ≠ "")
  ∧ (PluginManager.enable_plugin st pid).1.db = st.db
  ∧ (∃ e, PluginManager.get_plugin_error
        ((PluginManager.enable_plugin st pid).1) pid = some e ∧ e ≠ "") := by
  obtain ⟨k, d, t, hexc⟩ := hfail (PluginAPI.init p.id p.permissions)
  have hid := dbGetPlugin_id hp
  have hload : PluginManager.load_plugin st p =
      (ManagerState.mk st.db
        (dictSet st.sandboxes p.id
          (PluginSandbox.mk p.id none none false
            (some ("插件加载失败: " ++ (k ++ ": " ++ d ++ "\n" ++ t))) 1 5))
        st.loaded_modules st.files,
       some ("加载插件失败: " ++
             ("插件加载失败: " ++ (k ++ ": " ++ d ++ "\n" ++ t)))) := by
    unfold PluginManager.load_plugin
    rw [hf]
    simp [hexc, PluginManager.loadFail, PluginSandbox.execute_safely,
          PluginSandbox.init]
  have hen : PluginManager.enable_plugin st pid =
      (ManagerState.mk st.db
        (dictSet st.sandboxes p.id
          (PluginSandbox.mk p.id none none false
            (some ("插件加载失败: " ++ (k ++ ": " ++ d ++ "\n" ++ t))) 1 5))
        st.loaded_modules st.files,
       some ("加载插件失败: " ++
             ("插件加载失败: " ++ (k ++ ": " ++ d ++ "\n" ++ t)))) := by
    unfold PluginManager.enable_plugin
    rw [hp]
    simp only [he, Bool.false_eq_true, if_false]
    rw [hload]
  refine ⟨⟨"加载插件失败: " ++ ("插件加载失败: " ++ (k ++ ": " ++ d ++ "\n" ++ t)),
           by rw [hen], append_ne_empty _ _ (by decide)⟩,
          by rw [hen],
          ⟨"插件加载失败: " ++ (k ++ ": " ++ d ++ "\n" ++ t), ?_,
           append_ne_empty _ _ (by decide)⟩⟩
  unfold PluginManager.get_plugin_error
  rw [hen, ← hid]
  simp [dictGet_dictSet_self]

/-- The concrete state of the C2 witness: an installed, disabled plugin
whose on_load raises `RuntimeError("boom")`. -/
def errState : ManagerState :=
  { db := [PluginInfo.mk "err" "E" "1" "" "" "main.py" [] false 0],
    files := [("err",
      .loads (fun _ => PyResult.exc "RuntimeError" "boom" "tb")
        (PyResult.ok ()))] }

/-- Witness for C2 at the concrete failing plugin. -/
theorem enable_failing_on_load_witness :
    (∃ err, (PluginManager.enable_plugin errState "err").2 = some err ∧
       err ≠ "")
  ∧ (PluginManager.enable_plugin errState "err").1.db = errState.db
  ∧ (∃ e, PluginManager.get_plugin_error
        ((PluginManager.enable_plugin errState "err").1) "err" = some e ∧
       e ≠ "") :=
  enable_failing_on_load errState "err"
    (PluginInfo.mk "err" "E" "1" "" "" "main.py" [] false 0)
    (fun _ => PyResult.exc "RuntimeError" "boom" "tb") (PyResult.ok ())
    (by decide) (by decide) rfl
    (fun a => ⟨"RuntimeError", "boom", "tb", rfl⟩)

/-! ### C3: the lifecycle round trip -/

/-- Manifest dict for a package with the four required fields and a
permission list, mirroring the property-test fixture
`create_test_plugin_dir` (tests/property/test_plugin_properties.py). -/
def mkManifest (id name version entry_point : String)
    (permissions : List String) : PyVal :=
  .obj [("id", .str id), ("name", .str name), ("version", .str version),
        ("entry_point", .str entry_point),
        ("permissions", .arr (permissions.map .str))]

/-- A directory package holding `mkManifest` plus conforming plugin code. -/
def mkDirPackage (id name version entry_point : String)
    (permissions : List String) (onLoad : PluginAPI → PyResult PluginAPI)
    (onUnload : PyResult Unit) : PluginPackage :=
  .dirPkg (some (.parsed (mkManifest id name version entry_point permissions)))
    (.loads onLoad onUnload)

/-- The permission loop accepts any list of allow-listed strings. -/
theorem checkPermissionsList_allowed (l : List String)
    (h : ∀ s ∈ l, s ∈ allowedPermissions) :
    checkPermissionsList (l.map .str) = (true, "") := by
  induction l with
  | nil => rfl
  | cons s rest ih =>
      have hs : (allowedPermissions.any (fun a => PyVal.eqStr (.str s) a)) = true := by
        rw [List.any_eq_true]
        exact ⟨s, h s (by simp), by simp [PyVal.eqStr]⟩
      unfold checkPermissionsList
      simp only [List.map, hs, Bool.not_true, Bool.false_eq_true, if_false]
      exact ih (fun x hx => h x (by simp [hx]))

/-- Extracting a list of string-valued permissions succeeds elementwise. -/
theorem mapM_pyStr_extract (l : List String) :
    (List.mapM (fun p => match p with
      | PyVal.str s => Except.ok s
      | _ => Except.error "TypeError: permission is not a string")
      (l.map PyVal.str)) = Except.ok l := by
  induction l with
  | nil => rfl
  | cons s rest ih =>
      simp only [List.map, List.mapM_cons, ih, Bind.bind, Except.bind,
                 pure, Except.pure]

/-- Reading the `permissions` field of a manifest whose entries are the
strings `l` yields `l`. -/
theorem getPermsField_strs (kvs : List (String × PyVal)) (l : List String)
    (h : dictGet kvs "permissions" = some (.arr (l.map .str))) :
    PluginManager.getPermsField kvs = .ok l := by
  unfold PluginManager.getPermsField
  rw [h]
  exact mapM_pyStr_extract l

/-- The chain of manager states of the round trip: after install, enable,
disable, uninstall of one plugin from a fresh manager. -/
def rt1 (id name version ep : String) (perms : List String)
    (onLoad : PluginAPI → PyResult PluginAPI) (onUnload : PyResult Unit)
    (now : Nat) : ManagerState :=
  (PluginManager.install_plugin (PluginManager.init [] [])
    (mkDirPackage id name version ep perms onLoad onUnload) now).1

/-- State after the enable step of the round trip. -/
def rt2 (id name version ep : String) (perms : List String)
    (onLoad : PluginAPI → PyResult PluginAPI) (onUnload : PyResult Unit)
    (now : Nat) : ManagerState :=
  (PluginManager.enable_plugin (rt1 id name version ep perms onLoad onUnload now) id).1

/-- State after the disable step of the round trip. -/
def rt3 (id name version ep : String) (perms : List String)
    (onLoad : PluginAPI → PyResult PluginAPI) (onUnload : PyResult Unit)
    (now : Nat) : ManagerState :=
  (PluginManager.disable_plugin (rt2 id name version ep perms onLoad onUnload now) id).1

/-- State after the uninstall step of the round trip. -/
def rt4 (id name version ep : String) (perms : List String)
    (onLoad : PluginAPI → PyResult PluginAPI) (onUnload : PyResult Unit)
    (now : Nat) : ManagerState :=
  (PluginManager.uninstall_plugin (rt3 id name version ep perms onLoad onUnload now) id).1

/-- C3: for every valid package (required fields non-empty, a `.py` entry
point, allow-listed permissions, a loadable plugin), the sequence install →
enable → disable → uninstall succeeds; the persisted enabled flag is false
after install, true after enable, false again after disable; and after
uninstall `get_installed_plugins()` is empty and `get_plugin(id)` returns
nothing. -/
theorem lifecycle_round_trip (id name version ep : String)
    (perms : List String) (onLoad : PluginAPI → PyResult PluginAPI)
    (api' : PluginAPI) (onUnload : PyResult Unit) (now : Nat)
    (hid : id ≠ "") (hname : name ≠ "") (hver : version ≠ "")
    (hep : strEndsWith ep ".py" = true)
    (hperms : ∀ s ∈ perms, s ∈ allowedPermissions)
    (hload : onLoad (PluginAPI.init id perms) = .ok api') :
    ((PluginManager.install_plugin (PluginManager.init [] [])
        (mkDirPackage id name version ep perms onLoad onUnload) now).2
      = .ok (PluginInfo.mk id name version "" "" ep perms false now))
  ∧ ((PluginManager.get_plugin (rt1 id name version ep perms onLoad onUnload now) id).map
       PluginInfo.enabled = some false)
  ∧ ((PluginManager.enable_plugin (rt1 id name version ep perms onLoad onUnload now) id).2 = none)
  ∧ ((PluginManager.get_plugin (rt2 id name version ep perms onLoad onUnload now) id).map
       PluginInfo.enabled = some true)
  ∧ ((PluginManager.disable_plugin (rt2 id name version ep perms onLoad onUnload now) id).2 = none)
  ∧ ((PluginManager.get_plugin (rt3 id name version ep perms onLoad onUnload now) id).map
       PluginInfo.enabled = some false)
  ∧ ((PluginManager.uninstall_plugin (rt3 id name version ep perms onLoad onUnload now) id).2 = none)
  ∧ (PluginManager.get_installed_plugins (rt4 id name version ep perms onLoad onUnload now) = [])
  ∧ (PluginManager.get_plugin (rt4 id name version ep perms onLoad onUnload now) id = none) := by
  have hid' : (id == "") = false := by simp [hid]
  have hname' : (name == "") = false := by simp [hname]
  have hver' : (version == "") = false := by simp [hver]
  have hep0 : ep ≠ "" := by
    intro hc
    rw [hc] at hep
    exact absurd hep (by decide)
  have hep' : (ep == "") = false := by simp [hep0]
  -- validation succeeds on the generated manifest
  have hall : ∀ f ∈ requiredManifestFields,
      missingOrEmpty [("id", PyVal.str id), ("name", PyVal.str name),
        ("version", PyVal.str version), ("entry_point", PyVal.str ep),
        ("permissions", PyVal.arr (perms.map PyVal.str))] f = false := by
    intro f hf
    simp only [requiredManifestFields, List.mem_cons, List.not_mem_nil,
               or_false] at hf
    rcases hf with rfl | rfl | rfl | rfl <;>
      simp [missingOrEmpty, dictGet, List.find?, truthy, hid', hname', hver', hep']
  have hreq := checkRequiredFields_allOk _ requiredManifestFields hall
  have hcp := checkPermissionsList_allowed perms hperms
  have hvm : validateManifestVal (mkManifest id name version ep perms)
      = .ok (true, "") := by
    unfold validateManifestVal mkManifest
    rw [hreq]
    simp [Bind.bind, Except.bind, pure, Except.pure, dictGet, List.find?,
          pySubscript, hcp, hep]
  have hval : validatePlugin (mkDirPackage id name version ep perms onLoad onUnload)
      = (true, "") := by
    show validateDirPlugin (some (.parsed (mkManifest id name version ep perms)))
      = (true, "")
    simp only [validateDirPlugin, hvm]
  have hex : PluginManager.extractPluginInfo (mkManifest id name version ep perms) now
      = .ok (PluginInfo.mk id name version "" "" ep perms false now) := by
    unfold PluginManager.extractPluginInfo mkManifest
    have hpf := getPermsField_strs [("id", PyVal.str id), ("name", PyVal.str name),
        ("version", PyVal.str version), ("entry_point", PyVal.str ep),
        ("permissions", PyVal.arr (perms.map PyVal.str))] perms rfl
    simp [PluginManager.getStrField, PluginManager.getStrFieldD, hpf,
          dictGet, List.find?, Bind.bind, Except.bind, pure, Except.pure]
  have h1 : PluginManager.install_plugin (PluginManager.init [] [])
      (mkDirPackage id name version ep perms onLoad onUnload) now =
      (ManagerState.mk [PluginInfo.mk id name version "" "" ep perms false now]
        [] [] [(id, LoadBehavior.loads onLoad onUnload)],
       .ok (PluginInfo.mk id name version "" "" ep perms false now)) := by
    unfold PluginManager.install_plugin
    rw [hval]
    simp [hex, readManifest, dbGetPlugin, List.find?, dbAddPlugin, dictSet,
          PluginManager.init, mkDirPackage, PluginPackage.code]
  have h2 : PluginManager.enable_plugin
      (ManagerState.mk [PluginInfo.mk id name version "" "" ep perms false now]
        [] [] [(id, LoadBehavior.loads onLoad onUnload)]) id =
      (ManagerState.mk [PluginInfo.mk id name version "" "" ep perms true now]
         [(id, PluginSandbox.mk id (some (PluginInstance.mk onUnload))
            (some api') true none 0 5)]
         [id] [(id, LoadBehavior.loads onLoad onUnload)],
       none) := by
    unfold PluginManager.enable_plugin
    simp [dbGetPlugin, List.find?, beq_self_eq_true, PluginManager.load_plugin,
          dictGet, PluginSandbox.init, hload, PluginSandbox.execute_safely,
          dictSet, dbUpdatePluginStatus]
  refine ⟨?_, ?_, ?_, ?_, ?_, ?_, ?_, ?_, ?_⟩
  · rw [h1]
  · unfold rt1
    rw [h1]
    simp [PluginManager.get_plugin, dbGetPlugin, List.find?, beq_self_eq_true]
  · unfold rt1
    rw [h1]
    exact congrArg Prod.snd h2
  · unfold rt2 rt1
    rw [h1]
    simp only [h2]
    simp [PluginManager.get_plugin, dbGetPlugin, List.find?, beq_self_eq_true]
  · unfold rt2 rt1
    rw [h1]
    simp only [h2]
    simp [PluginManager.disable_plugin, dbGetPlugin, List.find?,
          beq_self_eq_true]
  · unfold rt3 rt2 rt1
    rw [h1]
    simp only [h2]
    simp [PluginManager.disable_plugin, PluginManager.unload_plugin,
          PluginManager.get_plugin, dbGetPlugin, List.find?, beq_self_eq_true,
          dictGet, dbUpdatePluginStatus, dictSet]
  · unfold rt3 rt2 rt1
    rw [h1]
    simp only [h2]
    simp [PluginManager.uninstall_plugin, PluginManager.disable_plugin,
          PluginManager.unload_plugin, dbGetPlugin, List.find?,
          beq_self_eq_true, dictGet, dbUpdatePluginStatus, dictSet,
          dbDeletePlugin, dictDel]
  · unfold rt4 rt3 rt2 rt1
    rw [h1]
    simp only [h2]
    simp [PluginManager.uninstall_plugin, PluginManager.disable_plugin,
          PluginManager.unload_plugin, PluginManager.get_installed_plugins,
          dbGetAllPlugins, dbGetPlugin, List.find?, beq_self_eq_true, dictGet,
          dbUpdatePluginStatus, dictSet, dbDeletePlugin, dictDel]
  · unfold rt4 rt3 rt2 rt1
    rw [h1]
    simp only [h2]
    simp [PluginManager.uninstall_plugin, PluginManager.disable_plugin,
          PluginManager.unload_plugin, PluginManager.get_plugin, dbGetPlugin,
          List.find?, beq_self_eq_true, dictGet, dbUpdatePluginStatus, dictSet,
          dbDeletePlugin, dictDel]

/-- Witness for C3 at the concrete demo plugin. -/
theorem lifecycle_round_trip_witness :
    ((PluginManager.install_plugin (PluginManager.init [] [])
        (mkDirPackage "demo" "Demo" "1.0.0" "main.py" ["storage"]
          demoStoringLoad (PyResult.ok ())) 0).2
      = .ok (PluginInfo.mk "demo" "Demo" "1.0.0" "" "" "main.py" ["storage"]
          false 0))
  ∧ ((PluginManager.get_plugin (rt1 "demo" "Demo" "1.0.0" "main.py" ["storage"] demoStoringLoad (PyResult.ok ()) 0) "demo").map
       PluginInfo.enabled = some false)
  ∧ ((PluginManager.enable_plugin (rt1 "demo" "Demo" "1.0.0" "main.py" ["storage"] demoStoringLoad (PyResult.ok ()) 0) "demo").2 = none)
  ∧ ((PluginManager.get_plugin (rt2 "demo" "Demo" "1.0.0" "main.py" ["storage"] demoStoringLoad (PyResult.ok ()) 0) "demo").map
       PluginInfo.enabled = some true)
  ∧ ((PluginManager.disable_plugin (rt2 "demo" "Demo" "1.0.0" "main.py" ["storage"] demoStoringLoad (PyResult.ok ()) 0) "demo").2 = none)
  ∧ ((PluginManager.get_plugin (rt3 "demo" "Demo" "1.0.0" "main.py" ["storage"] demoStoringLoad (PyResult.ok ()) 0) "demo").map
       PluginInfo.enabled = some false)
  ∧ ((PluginManager.uninstall_plugin (rt3 "demo" "Demo" "1.0.0" "main.py" ["storage"] demoStoringLoad (PyResult.ok ()) 0) "demo").2 = none)
  ∧ (PluginManager.get_installed_plugins (rt4 "demo" "Demo" "1.0.0" "main.py" ["storage"] demoStoringLoad (PyResult.ok ()) 0) = [])
  ∧ (PluginManager.get_plugin (rt4 "demo" "Demo" "1.0.0" "main.py" ["storage"] demoStoringLoad (PyResult.ok ()) 0) "demo" = none) :=
  lifecycle_round_trip "demo" "Demo" "1.0.0" "main.py" ["storage"]
    demoStoringLoad demoApi (PyResult.ok ()) 0 (by decide) (by decide)
    (by decide) (by decide) (by decide) rfl

/-! ### C4: startup auto-load independence -/

/-- `_load_plugin` never touches the persisted records. -/
theorem load_plugin_db (st : ManagerState) (p : PluginInfo) :
    (PluginManager.load_plugin st p).1.db = st.db := by
  cases hf : dictGet st.files p.id with
  | none => simp [PluginManager.load_plugin, hf]
  | some behavior =>
      cases behavior with
      | entryMissing => simp [PluginManager.load_plugin, hf]
      | moduleSpecFail =>
          simp [PluginManager.load_plugin, hf, PluginManager.loadFail]
      | execModuleFail d =>
          simp [PluginManager.load_plugin, hf, PluginManager.loadFail]
      | noPluginClass =>
          simp [PluginManager.load_plugin, hf, PluginManager.loadFail]
      | initFail d =>
          simp [PluginManager.load_plugin, hf, PluginManager.loadFail]
      | loads onLoad onUnload =>
          cases honl : onLoad (PluginAPI.init p.id p.permissions) with
          | ok api' => simp [PluginManager.load_plugin, hf, honl]
          | exc k d t =>
              simp [PluginManager.load_plugin, hf, honl,
                    PluginManager.loadFail]

/-- `_load_plugin` only writes the sandbox entry of its own plugin id. -/
theorem load_plugin_sandboxes_ne (st : ManagerState) (p : PluginInfo)
    (q : String) (hq : q ≠ p.id) :
    dictGet (PluginManager.load_plugin st p).1.sandboxes q =
      dictGet st.sandboxes q := by
  cases hf : dictGet st.files p.id with
  | none => simp [PluginManager.load_plugin, hf]
  | some behavior =>
      cases behavior with
      | entryMissing => simp [PluginManager.load_plugin, hf]
      | moduleSpecFail =>
          simp [PluginManager.load_plugin, hf, PluginManager.loadFail,
                dictGet_dictSet_ne _ _ _ _ hq]
      | execModuleFail d =>
          simp [PluginManager.load_plugin, hf, PluginManager.loadFail,
                dictGet_dictSet_ne _ _ _ _ hq]
      | noPluginClass =>
          simp [PluginManager.load_plugin, hf, PluginManager.loadFail,
                dictGet_dictSet_ne _ _ _ _ hq]
      | initFail d =>
          simp [PluginManager.load_plugin, hf, PluginManager.loadFail,
                dictGet_dictSet_ne _ _ _ _ hq]
      | loads onLoad onUnload =>
          cases honl : onLoad (PluginAPI.init p.id p.permissions) with
          | ok api' =>
              simp [PluginManager.load_plugin, hf, honl,
                    dictGet_dictSet_ne _ _ _ _ hq]
          | exc k d t =>
              simp [PluginManager.load_plugin, hf, honl,
                    PluginManager.loadFail, dictGet_dictSet_ne _ _ _ _ hq]

/-- A load that returns no error has stored a sandbox marked loaded. -/
theorem load_plugin_success_loaded (st : ManagerState) (p : PluginInfo)
    (h : (PluginManager.load_plugin st p).2 = none) :
    PluginManager.is_plugin_loaded (PluginManager.load_plugin st p).1 p.id
      = true := by
  cases hf : dictGet st.files p.id with
  | none => simp [PluginManager.load_plugin, hf] at h
  | some behavior =>
      cases behavior with
      | entryMissing => simp [PluginManager.load_plugin, hf] at h
      | moduleSpecFail =>
          simp [PluginManager.load_plugin, hf, PluginManager.loadFail] at h
      | execModuleFail d =>
          simp [PluginManager.load_plugin, hf, PluginManager.loadFail] at h
      | noPluginClass =>
          simp [PluginManager.load_plugin, hf, PluginManager.loadFail] at h
      | initFail d =>
          simp [PluginManager.load_plugin, hf, PluginManager.loadFail] at h
      | loads onLoad onUnload =>
          cases honl : onLoad (PluginAPI.init p.id p.permissions) with
          | ok api' =>
              simp [PluginManager.load_plugin, hf, honl,
                    PluginManager.is_plugin_loaded, dictGet_dictSet_self]
          | exc k d t =>
              simp [PluginManager.load_plugin, hf, honl,
                    PluginManager.loadFail] at h

/-- Every error `_load_plugin` raises carries a non-empty message. -/
theorem load_plugin_fail_ne_empty (st : ManagerState) (p : PluginInfo)
    (e : String) (h : (PluginManager.load_plugin st p).2 = some e) :
    e ≠ "" := by
  cases hf : dictGet st.files p.id with
  | none =>
      simp [PluginManager.load_plugin, hf] at h
      rw [← h]
      exact append_ne_empty "插件入口点不存在: " _ (by decide)
  | some behavior =>
      cases behavior with
      | entryMissing =>
          simp [PluginManager.load_plugin, hf] at h
          rw [← h]
          exact append_ne_empty "插件入口点不存在: " _ (by decide)
      | moduleSpecFail =>
          simp [PluginManager.load_plugin, hf, PluginManager.loadFail] at h
          rw [← h]
          exact append_ne_empty "加载插件失败: " _ (by decide)
      | execModuleFail d =>
          simp [PluginManager.load_plugin, hf, PluginManager.loadFail] at h
          rw [← h]
          exact append_ne_empty "加载插件失败: " _ (by decide)
      | noPluginClass =>
          simp [PluginManager.load_plugin, hf, PluginManager.loadFail] at h
          rw [← h]
          exact append_ne_empty "加载插件失败: " _ (by decide)
      | initFail d =>
          simp [PluginManager.load_plugin, hf, PluginManager.loadFail] at h
          rw [← h]
          exact append_ne_empty "加载插件失败: " _ (by decide)
      | loads onLoad onUnload =>
          cases honl : onLoad (PluginAPI.init p.id p.permissions) with
          | ok api' =>
              simp [PluginManager.load_plugin, hf, honl] at h
          | exc k d t =>
              simp [PluginManager.load_plugin, hf, honl,
                    PluginManager.loadFail] at h
              rw [← h]
              exact append_ne_empty "加载插件失败: " _ (by decide)

/-- Unfolding `loadEnabledGo` over a successful head. -/
theorem loadEnabledGo_cons_none (st st1 : ManagerState) (p : PluginInfo)
    (rest : List PluginInfo)
    (hl : PluginManager.load_plugin st p = (st1, none)) :
    PluginManager.loadEnabledGo st (p :: rest) =
      ((PluginManager.loadEnabledGo st1 rest).1,
       (p.id, none) :: (PluginManager.loadEnabledGo st1 rest).2) := by
  rw [PluginManager.loadEnabledGo.eq_2, hl]

/-- Unfolding `loadEnabledGo` over a failing head: the failure is recorded
and that plugin's persisted record is disabled before continuing. -/
theorem loadEnabledGo_cons_some (st st1 : ManagerState) (p : PluginInfo)
    (rest : List PluginInfo) (e : String)
    (hl : PluginManager.load_plugin st p = (st1, some e)) :
    PluginManager.loadEnabledGo st (p :: rest) =
      ((PluginManager.loadEnabledGo
          { st1 with db := dbUpdatePluginStatus st1.db p.id false } rest).1,
       (p.id, some e) ::
         (PluginManager.loadEnabledGo
           { st1 with db := dbUpdatePluginStatus st1.db p.id false } rest).2) := by
  rw [PluginManager.loadEnabledGo.eq_2, hl]

/-- `update_plugin_status` on one id leaves lookups of other ids alone. -/
theorem dbGetPlugin_update_ne (db : List PluginInfo) (k q : String) (e : Bool)
    (h : q ≠ k) :
    dbGetPlugin (dbUpdatePluginStatus db k e) q = dbGetPlugin db q := by
  induction db with
  | nil => rfl
  | cons p tl ih =>
      by_cases hpk : (p.id == k) = true
      · have hpk' : p.id = k := by simpa using hpk
        have hpq : (p.id == q) = false := by simp [hpk', Ne.symm h]
        simpa [dbGetPlugin, dbUpdatePluginStatus, List.find?, hpk, hpq]
          using ih
      · have hpk' : (p.id == k) = false := by simpa using hpk
        by_cases hpq : (p.id == q) = true
        · simp [dbGetPlugin, dbUpdatePluginStatus, List.find?, hpk', hpq]
        · have hpq' : (p.id == q) = false := by simpa using hpq
          simpa [dbGetPlugin, dbUpdatePluginStatus, List.find?, hpk', hpq']
            using ih

/-- `update_plugin_status` rewrites the enabled flag of the looked-up row. -/
theorem dbGetPlugin_update_self (db : List PluginInfo) (k : String) (e : Bool) :
    dbGetPlugin (dbUpdatePluginStatus db k e) k =
      (dbGetPlugin db k).map (fun p => { p with enabled := e }) := by
  induction db with
  | nil => rfl
  | cons p tl ih =>
      by_cases hpk : (p.id == k) = true
      · simp [dbGetPlugin, dbUpdatePluginStatus, List.find?, hpk]
      · have hpk' : (p.id == k) = false := by simpa using hpk
        simpa [dbGetPlugin, dbUpdatePluginStatus, List.find?, hpk'] using ih

/-- The auto-load loop leaves the sandbox entries and database rows of ids
outside the processed list untouched. -/
theorem loadEnabledGo_frame (rest : List PluginInfo) (st : ManagerState)
    (q : String) (hq : q ∉ rest.map (·.id)) :
    (dictGet (PluginManager.loadEnabledGo st rest).1.sandboxes q =
       dictGet st.sandboxes q)
  ∧ (dbGetPlugin (PluginManager.loadEnabledGo st rest).1.db q =
       dbGetPlugin st.db q) := by
  induction rest generalizing st with
  | nil => exact ⟨rfl, rfl⟩
  | cons p tl ih =>
      have hqp : q ≠ p.id := fun hc => hq (by simp [hc])
      have hq' : q ∉ tl.map (·.id) := fun hc =>
        hq (by simp only [List.map]; exact List.mem_cons_of_mem _ hc)
      rcases hl : PluginManager.load_plugin st p with ⟨st1, out⟩
      have hfst : (PluginManager.load_plugin st p).1 = st1 :=
        congrArg Prod.fst hl
      have hsand1 : dictGet st1.sandboxes q = dictGet st.sandboxes q := by
        have := load_plugin_sandboxes_ne st p q hqp
        rwa [hfst] at this
      have hdb1 : st1.db = st.db := by
        have := load_plugin_db st p
        rwa [hfst] at this
      cases out with
      | none =>
          rw [loadEnabledGo_cons_none st st1 p tl hl]
          obtain ⟨ih1, ih2⟩ := ih st1 hq'
          exact ⟨by rw [ih1, hsand1], by rw [ih2, hdb1]⟩
      | some e =>
          rw [loadEnabledGo_cons_some st st1 p tl e hl]
          obtain ⟨ih1, ih2⟩ :=
            ih { st1 with db := dbUpdatePluginStatus st1.db p.id false } hq'
          refine ⟨by rw [ih1]; exact hsand1, ?_⟩
          rw [ih2]
          show dbGetPlugin (dbUpdatePluginStatus st1.db p.id false) q =
            dbGetPlugin st.db q
          rw [dbGetPlugin_update_ne _ _ _ _ hqp, hdb1]

/-- Core induction for C4 over the list of enabled records. -/
theorem loadEnabledGo_spec (ps : List PluginInfo) (st : ManagerState)
    (hnd : (ps.map (·.id)).Nodup)
    (hmem : ∀ p ∈ ps, (dbGetPlugin st.db p.id).isSome = true) :
    ((PluginManager.loadEnabledGo st ps).2.map Prod.fst = ps.map (·.id))
  ∧ (∀ pid r, (pid, r) ∈ (PluginManager.loadEnabledGo st ps).2 →
      (r = none → PluginManager.is_plugin_loaded
          (PluginManager.loadEnabledGo st ps).1 pid = true)
    ∧ (∀ e, r = some e → e ≠ "" ∧
        (dbGetPlugin (PluginManager.loadEnabledGo st ps).1.db pid).map
          (·.enabled) = some false)) := by
  induction ps generalizing st with
  | nil =>
      constructor
      · rfl
      · intro pid r hr
        simp [PluginManager.loadEnabledGo] at hr
  | cons p rest ih =>
      have hnd' : (rest.map (·.id)).Nodup := (List.nodup_cons.mp hnd).2
      have hpn : p.id ∉ rest.map (·.id) := (List.nodup_cons.mp hnd).1
      rcases hl : PluginManager.load_plugin st p with ⟨st1, out⟩
      have hfst : (PluginManager.load_plugin st p).1 = st1 :=
        congrArg Prod.fst hl
      have hdb1 : st1.db = st.db := by
        have := load_plugin_db st p
        rwa [hfst] at this
      cases out with
      | none =>
          rw [loadEnabledGo_cons_none st st1 p rest hl]
          have hmem' : ∀ q ∈ rest, (dbGetPlugin st1.db q.id).isSome = true := by
            intro q hq
            rw [hdb1]
            exact hmem q (List.mem_cons_of_mem _ hq)
          obtain ⟨ihfst, ihrest⟩ := ih st1 hnd' hmem'
          constructor
          · simp [ihfst]
          · intro pid r hr
            simp only [List.mem_cons] at hr
            rcases hr with heq | hmemr
            · rw [Prod.mk.injEq] at heq
              obtain ⟨rfl, rfl⟩ := heq
              constructor
              · intro _
                have hloaded : PluginManager.is_plugin_loaded st1 p.id = true := by
                  have := load_plugin_success_loaded st p (by rw [hl])
                  rwa [hfst] at this
                have hframe := (loadEnabledGo_frame rest st1 p.id hpn).1
                unfold PluginManager.is_plugin_loaded at hloaded ⊢
                rw [hframe]
                exact hloaded
              · intro e he
                exact absurd he (by simp)
            · exact ihrest pid r hmemr
      | some e =>
          rw [loadEnabledGo_cons_some st st1 p rest e hl]
          have hmem' : ∀ q ∈ rest,
              (dbGetPlugin (dbUpdatePluginStatus st1.db p.id false) q.id).isSome
                = true := by
            intro q hq
            by_cases hqe : q.id = p.id
            · rw [hqe, dbGetPlugin_update_self]
              have := hmem p (by simp)
              rw [← hdb1] at this
              simpa using this
            · rw [dbGetPlugin_update_ne _ _ _ _ hqe, hdb1]
              exact hmem q (List.mem_cons_of_mem _ hq)
          obtain ⟨ihfst, ihrest⟩ :=
            ih { st1 with db := dbUpdatePluginStatus st1.db p.id false } hnd' hmem'
          constructor
          · simp [ihfst]
          · intro pid r hr
            simp only [List.mem_cons] at hr
            rcases hr with heq | hmemr
            · rw [Prod.mk.injEq] at heq
              obtain ⟨rfl, rfl⟩ := heq
              constructor
              · intro hcon
                exact absurd hcon (by simp)
              · intro e2 he2
                have he2' : e = e2 := by simpa using he2
                subst he2'
                refine ⟨load_plugin_fail_ne_empty st p e (by rw [hl]), ?_⟩
                have hframe := (loadEnabledGo_frame rest
                  { st1 with db := dbUpdatePluginStatus st1.db p.id false }
                  p.id hpn).2
                rw [hframe]
                show (dbGetPlugin (dbUpdatePluginStatus st1.db p.id false)
                  p.id).map (·.enabled) = some false
                rw [dbGetPlugin_update_self]
                have := hmem p (by simp)
                rw [← hdb1] at this
                rcases Option.isSome_iff_exists.mp this with ⟨pp, hpp⟩
                rw [hpp]
                rfl
            · exact ihrest pid r hmemr

/-- C4: `load_enabled_plugins` processes every persisted enabled record
independently, returning exactly one result entry per record in order; a
plugin that loaded successfully maps to `none` and is reported loaded by
`is_plugin_loaded`, and a plugin that failed maps to a non-empty error
string and has its persisted enabled flag reset to false — one plugin's
failure never prevents the remaining plugins from being processed. -/
theorem load_enabled_plugins_spec (st : ManagerState)
    (hnd : ((dbGetEnabledPlugins st.db).map (·.id)).Nodup) :
    ((PluginManager.load_enabled_plugins st).2.map Prod.fst
       = (dbGetEnabledPlugins st.db).map (·.id))
  ∧ ∀ pid r, (pid, r) ∈ (PluginManager.load_enabled_plugins st).2 →
      (r = none → PluginManager.is_plugin_loaded
          (PluginManager.load_enabled_plugins st).1 pid = true)
    ∧ (∀ e, r = some e → e ≠ "" ∧
        (dbGetPlugin (PluginManager.load_enabled_plugins st).1.db pid).map
          (·.enabled) = some false) := by
  have hmem : ∀ p ∈ dbGetEnabledPlugins st.db,
      (dbGetPlugin st.db p.id).isSome = true := by
    intro p hp
    have hpdb : p ∈ st.db := List.mem_of_mem_filter hp
    unfold dbGetPlugin
    rw [List.find?_isSome]
    exact ⟨p, hpdb, by simp⟩
  exact loadEnabledGo_spec _ st hnd hmem

/-- Concrete auto-load scenario: three persisted enabled plugins where the
second's code unit contains no plugin class and so fails to load. -/
def autoLoadState : ManagerState :=
  { db := [PluginInfo.mk "p1" "P1" "1" "" "" "main.py" [] true 0,
           PluginInfo.mk "p2" "P2" "1" "" "" "main.py" [] true 0,
           PluginInfo.mk "p3" "P3" "1" "" "" "main.py" [] true 0],
    files := [("p1", .loads (fun a => .ok a) (.ok ())),
              ("p2", .noPluginClass),
              ("p3", .loads (fun a => .ok a) (.ok ()))] }

/-- Witness for C4 at the three-plugin scenario with a failing middle
plugin. -/
theorem load_enabled_plugins_spec_witness :
    ((PluginManager.load_enabled_plugins autoLoadState).2.map Prod.fst
       = (dbGetEnabledPlugins autoLoadState.db).map (·.id))
  ∧ ∀ pid r, (pid, r) ∈ (PluginManager.load_enabled_plugins autoLoadState).2 →
      (r = none → PluginManager.is_plugin_loaded
          (PluginManager.load_enabled_plugins autoLoadState).1 pid = true)
    ∧ (∀ e, r = some e → e ≠ "" ∧
        (dbGetPlugin (PluginManager.load_enabled_plugins autoLoadState).1.db
            pid).map (·.enabled) = some false) :=
  load_enabled_plugins_spec autoLoadState (by decide)

end HPR
